import Mathlib

/-!
The prudebug C++ bindings: the PRU / PRUSS command and state-machine layer.

A shallow embedding of `src/cpp-bindings/pruss.cpp` and `pruss.h`.

* The process environment (the daemon behind `/tmp/prussd.sock`, the kernel
  calls `socket`, `connect`, `recv`, `realpath`, and the uninitialised stack
  bytes of `sendcmd`) is an `Env`: a record of functions of the trace of
  everything that happened on the transport so far.
* The trace is a ghost log threaded through every operation, oldest event
  first.
* `int`-returning members that call `std::stoi` may leave by a C++ exception;
  their result is a `Ret Int`, and the object state at the throw is returned
  with it.
-/

namespace Pruss

/-! ## Platform constants -/

/-- Modelled from the spec: the no-device error code of `<errno.h>`, which is
not part of the repository; the value is the Linux one. -/
def ENODEV : Int := 19

/-- Modelled from the spec: the invalid-argument error code of `<errno.h>`,
which is not part of the repository; the value is the Linux one. -/
def EINVAL : Int := 22

/-- Modelled from the spec: the connection-refused error code of `<errno.h>`,
which is not part of the repository; the value is the Linux one. -/
def ECONNREFUSED : Int := 111

/-- Modelled from the spec: the already-done error code of `<errno.h>`, which
is not part of the repository; the value is the Linux one. -/
def EALREADY : Int := 114

/-- Smallest value of the C++ type `int` (32 bits). -/
def INT_MIN : Int := -2147483648

/-- Largest value of the C++ type `int` (32 bits). -/
def INT_MAX : Int := 2147483647

/-- The string terminator byte. -/
def NUL : Char := Char.ofNat 0

/-- The line terminator byte. -/
def NL : Char := Char.ofNat 10

/-! ## Data model (`pruss.h`) -/

/-- The `enum State` of `pruss.h`. -/
inductive State where
  | NONE
  | STOPPED
  | RUNNING
  | HALTED
  deriving DecidableEq, Repr

/-- The exceptions `std::stoi` can throw. -/
inductive Exn where
  | invalid_argument
  | out_of_range
  deriving DecidableEq, Repr

/-- Outcome of a member function that may throw: a returned value or an
exception in flight. -/
inductive Ret (α : Type) where
  | ok (v : α)
  | throw (e : Exn)
  deriving DecidableEq, Repr

/-- One observable step on the transport. -/
inductive Event where
  /-- `socket()` followed by `connect()`, with the result of `connect`. -/
  | connect (ok : Bool)
  /-- `send()`: the command handed to `sendcmd` and the bytes put on the wire
  (`none` when the C++ standard leaves them undefined). -/
  | write (command : String) (bytes : Option (List Char))
  /-- `recv()`: the reply string built from the received bytes. -/
  | read (reply : String)
  /-- `close()` of the descriptor. -/
  | close
  deriving DecidableEq, Repr

/-- The ghost log of transport events, oldest first. -/
abbrev Trace := List Event

/-- The commands written to the transport so far, oldest first. -/
def commands : Trace → List String
  | [] => []
  | Event.write c _ :: t => c :: commands t
  | _ :: t => commands t

/-- Everything outside the program: each field is asked with the trace at
the moment of the call. -/
structure Env where
  /-- descriptor returned by `socket(AF_UNIX, SOCK_STREAM, 0)` -/
  socket : Trace → Int
  /-- whether `connect()` succeeds -/
  connect : Trace → Bool
  /-- the memory that follows the newline written into `buf` in `sendcmd` -/
  junk : Trace → List Char
  /-- the bytes the daemon delivers to `recv()` in answer to a command -/
  recv : Trace → String → List Char
  /-- the content of `buf` after `realpath(fw, buf)` -/
  realpath : String → String

/-- The `class Socket` of `pruss.h`; `socketpath` is the constant
`/tmp/prussd.sock` and `addr` is derived from it. -/
structure Socket where
  fd : Int
  deriving DecidableEq, Repr

/-- The `class PRU` of `pruss.h`. -/
structure PRU where
  number : Int
  chanPort : Int
  chanName : String
  sock : Socket
  state : State
  deriving DecidableEq, Repr

/-- The `class PRUSS` of `pruss.h`; the member `on` is written `on_`, since
`on` is a reserved word here. -/
structure PRUSS where
  on_ : Bool
  sock : Socket
  pru0 : PRU
  pru1 : PRU
  deriving DecidableEq, Repr

/-! ## Library functions used by the source -/

/-- The C++ `std::to_string(int)`: the decimal text of an integer. -/
def to_string (n : Int) : String := toString n

/-- The C++ `std::string::c_str` read as a C string: the characters before the
first terminator. -/
def c_str (s : String) : List Char := s.data.takeWhile (fun c => c != NUL)

/-- The C `isspace` in the C locale. -/
def isspace (c : Char) : Bool :=
  c.toNat = 32 || (9 ≤ c.toNat && c.toNat ≤ 13)

/-- The C `isdigit`. -/
def isdigit (c : Char) : Bool := 48 ≤ c.toNat && c.toNat ≤ 57

/-- Value of the leading run of decimal digits, continuing from `acc`. -/
def digitsValue (acc : Nat) : List Char → Nat
  | [] => acc
  | c :: cs => if isdigit c then digitsValue (acc * 10 + (c.toNat - 48)) cs else acc

/-- The C++ `std::stoi(str)` in base 10: leading white space is skipped, an
optional sign is read, then the longest run of digits; trailing text is
ignored. No digit at all throws `invalid_argument`, a value outside `int`
throws `out_of_range`. -/
def stoi (s : String) : Ret Int :=
  let cs := (c_str s).dropWhile isspace
  let signed : Bool × List Char :=
    match cs with
    | c :: r => if c = '-' then (true, r) else if c = '+' then (false, r) else (false, cs)
    | [] => (false, [])
  match signed.2 with
  | [] => Ret.throw Exn.invalid_argument
  | d :: _ =>
    if isdigit d then
      let v : Int := if signed.1 then - (digitsValue 0 signed.2 : Int) else (digitsValue 0 signed.2 : Int)
      if INT_MIN ≤ v ∧ v ≤ INT_MAX then Ret.ok v else Ret.throw Exn.out_of_range
    else Ret.throw Exn.invalid_argument

/-- The C `snprintf(buf, size, fmt)` called with a format and no further
argument: the text it produces. Ordinary characters are copied, a doubled
percent sign gives one percent sign, and any other conversion reads an
argument that was not passed, which is undefined (`none`). -/
def snprintf : List Char → Option (List Char)
  | [] => some []
  | c :: cs =>
    if c = '%' then
      match cs with
      | d :: ds => if d = '%' then (snprintf ds).map (fun r => '%' :: r) else none
      | [] => none
    else (snprintf cs).map (fun r => c :: r)

/-! ## `class Socket` -/

/-- The constructor `Socket::Socket`. -/
def Socket.new : Socket := { fd := -1 }

/-- The member `Socket::conn`: takes a fresh descriptor and connects it. -/
def Socket.conn (env : Env) (s : Socket) (t : Trace) : Bool × Socket × Trace :=
  let s1 : Socket := { s with fd := env.socket t }
  if env.connect t = false then (false, s1, t ++ [Event.connect false])
  else (true, s1, t ++ [Event.connect true])

/-- The member `Socket::disconn`. -/
def Socket.disconn (s : Socket) (t : Trace) : Bool × Socket × Trace :=
  if s.fd = -1 then (false, s, t)
  else (true, { s with fd := -1 }, t ++ [Event.close])

/-- The bytes `send(fd, buf, strlen(buf), 0)` transmits in `sendcmd`:
`nbytes = snprintf(buf, 2048, command)`, then `buf[nbytes]` is overwritten
with a newline, which removes the terminator, so `strlen` runs on into the
memory behind it. Undefined (`none`) when the format is, or when `nbytes`
is not an index of `buf`. -/
def Socket.wire (junk : List Char) (command : String) : Option (List Char) :=
  match snprintf (c_str command) with
  | none => none
  | some out =>
    if out.length < 2048 then some (out ++ NL :: junk.takeWhile (fun c => c != NUL))
    else none

/-- The string `std::string(rec)` after `recv(fd, rec, 2048, 0)` and
`rec[nbytes] = 0`: at most 2048 bytes, cut at the first terminator. -/
def Socket.received (bytes : List Char) : String :=
  String.mk ((bytes.take 2048).takeWhile (fun c => c != NUL))

/-- The reply `sendcmd` reads for `command` when the connection was made at
trace `t`. -/
def Env.reply (env : Env) (t : Trace) (command : String) : String :=
  Socket.received (env.recv t command)

/-- The member `Socket::sendcmd`. -/
def Socket.sendcmd (env : Env) (s : Socket) (t : Trace) (command : String) :
    String × Socket × Trace :=
  let c := Socket.conn env s t
  if c.1 = false then (to_string ECONNREFUSED, c.2.1, c.2.2)
  else
    let received := env.reply t command
    let t1 := c.2.2 ++ [Event.write command (Socket.wire (env.junk t) command), Event.read received]
    let d := Socket.disconn c.2.1 t1
    (received, d.2.1, d.2.2)

/-! ## `class PRU` -/

/-- The member `PRU::setChannel()`: the default channel. -/
def PRU.setChannel (p : PRU) : PRU :=
  { p with chanPort := if p.number ≠ 0 then 1 else 0, chanName := "pruss_api_pru" }

/-- The member `PRU::getState`. -/
def PRU.getState (p : PRU) : State := p.state

/-- The member `PRU::enable`. -/
def PRU.enable (env : Env) (p : PRU) (t : Trace) : Ret Int × PRU × Trace :=
  if p.state = State.NONE then (Ret.ok (-ENODEV), p, t)
  else if p.state = State.RUNNING ∨ p.state = State.HALTED then (Ret.ok (-EALREADY), p, t)
  else
    let r := p.sock.sendcmd env t ("ENABLE_" ++ to_string p.number)
    let p1 : PRU := { p with sock := r.2.1 }
    match stoi r.1 with
    | Ret.throw e => (Ret.throw e, p1, r.2.2)
    | Ret.ok ret =>
      if ret = 0 then (Ret.ok ret, { p1 with state := State.RUNNING }, r.2.2)
      else (Ret.ok ret, p1, r.2.2)

/-- The member `PRU::disable`. -/
def PRU.disable (env : Env) (p : PRU) (t : Trace) : Ret Int × PRU × Trace :=
  if p.state = State.NONE then (Ret.ok (-ENODEV), p, t)
  else if p.state = State.STOPPED then (Ret.ok (-EALREADY), p, t)
  else
    let r := p.sock.sendcmd env t ("DISABLE_" ++ to_string p.number)
    let p1 : PRU := { p with sock := r.2.1 }
    match stoi r.1 with
    | Ret.throw e => (Ret.throw e, p1, r.2.2)
    | Ret.ok ret =>
      if ret = 0 then (Ret.ok ret, { p1 with state := State.STOPPED }, r.2.2)
      else (Ret.ok ret, p1, r.2.2)

/-- The member `PRU::reset`: the result of `disable` is dropped, an exception
leaving `disable` is not. -/
def PRU.reset (env : Env) (p : PRU) (t : Trace) : Ret Int × PRU × Trace :=
  let d := p.disable env t
  match d.1 with
  | Ret.throw e => (Ret.throw e, d.2.1, d.2.2)
  | Ret.ok _ => d.2.1.enable env d.2.2

/-- The member `PRU::pause`. -/
def PRU.pause (env : Env) (p : PRU) (t : Trace) : Ret Int × PRU × Trace :=
  if p.state = State.NONE then (Ret.ok (-ENODEV), p, t)
  else if p.state = State.HALTED then (Ret.ok (-EALREADY), p, t)
  else
    let r := p.sock.sendcmd env t ("PAUSE_" ++ to_string p.number)
    let p1 : PRU := { p with sock := r.2.1 }
    match stoi r.1 with
    | Ret.throw e => (Ret.throw e, p1, r.2.2)
    | Ret.ok ret =>
      if ret = 0 then (Ret.ok ret, { p1 with state := State.HALTED }, r.2.2)
      else (Ret.ok ret, p1, r.2.2)

/-- The member `PRU::resume`. -/
def PRU.resume (env : Env) (p : PRU) (t : Trace) : Ret Int × PRU × Trace :=
  if p.state = State.NONE ∨ p.state = State.STOPPED then (Ret.ok (-ENODEV), p, t)
  else if p.state = State.RUNNING then (Ret.ok (-EALREADY), p, t)
  else
    let r := p.sock.sendcmd env t ("RESUME_" ++ to_string p.number)
    let p1 : PRU := { p with sock := r.2.1 }
    match stoi r.1 with
    | Ret.throw e => (Ret.throw e, p1, r.2.2)
    | Ret.ok ret =>
      if ret = 0 then (Ret.ok ret, { p1 with state := State.RUNNING }, r.2.2)
      else (Ret.ok ret, p1, r.2.2)

/-- The member `PRU::showRegs`. -/
def PRU.showRegs (env : Env) (p : PRU) (t : Trace) : String × PRU × Trace :=
  let r := p.sock.sendcmd env t ("GETREGS_" ++ to_string p.number)
  (r.1, { p with sock := r.2.1 }, r.2.2)

/-- The member `PRU::load`: the results of `disable` and `enable` are dropped,
exceptions are not; `fullPath` is what `realpath` left in `buf`. -/
def PRU.load (env : Env) (p : PRU) (t : Trace) (fw : String) : Ret Int × PRU × Trace :=
  let d := p.disable env t
  match d.1 with
  | Ret.throw e => (Ret.throw e, d.2.1, d.2.2)
  | Ret.ok _ =>
    let fullPath := env.realpath fw
    let r := d.2.1.sock.sendcmd env d.2.2 ("LOAD_" ++ to_string p.number ++ " " ++ fullPath)
    let p1 : PRU := { d.2.1 with sock := r.2.1 }
    match stoi r.1 with
    | Ret.throw e => (Ret.throw e, p1, r.2.2)
    | Ret.ok ret =>
      let e := p1.enable env r.2.2
      match e.1 with
      | Ret.throw x => (Ret.throw x, e.2.1, e.2.2)
      | Ret.ok _ => (Ret.ok ret, e.2.1, e.2.2)

/-- The member `PRU::setChannel(int, string)`. -/
def PRU.setChannelTo (p : PRU) (port : Int) (name : String) : Int × PRU :=
  if port < 0 then (-EINVAL, p)
  else (0, { p with chanPort := port, chanName := name })

/-- The member `PRU::sendMsg_string`. -/
def PRU.sendMsg_string (env : Env) (p : PRU) (t : Trace) (message : String) :
    Ret Int × PRU × Trace :=
  let cmd := "SENDMSG s " ++ p.chanName ++ " " ++ to_string p.chanPort ++ " " ++ message
  let r := p.sock.sendcmd env t cmd
  (stoi r.1, { p with sock := r.2.1 }, r.2.2)

/-- The member `PRU::sendMsg_raw`. -/
def PRU.sendMsg_raw (env : Env) (p : PRU) (t : Trace) (message : String) : PRU × Trace :=
  let cmd := "SENDMSG r " ++ p.chanName ++ " " ++ to_string p.chanPort ++ " " ++ message
  let r := p.sock.sendcmd env t cmd
  ({ p with sock := r.2.1 }, r.2.2)

/-- The member `PRU::getMsg`. -/
def PRU.getMsg (env : Env) (p : PRU) (t : Trace) : String × PRU × Trace :=
  let r := p.sock.sendcmd env t ("GETMSG " ++ p.chanName ++ " " ++ to_string p.chanPort)
  (r.1, { p with sock := r.2.1 }, r.2.2)

/-- The member `PRU::waitForEvent()`. -/
def PRU.waitForEvent (env : Env) (p : PRU) (t : Trace) : Ret Int × PRU × Trace :=
  let r := p.sock.sendcmd env t ("EVENTWAIT " ++ p.chanName ++ " " ++ to_string p.chanPort)
  (stoi r.1, { p with sock := r.2.1 }, r.2.2)

/-- The member `PRU::waitForEvent(int)`. -/
def PRU.waitForEventFor (env : Env) (p : PRU) (t : Trace) (time : Int) :
    Ret Int × PRU × Trace :=
  let r := p.sock.sendcmd env t
    ("EVENTWAIT " ++ p.chanName ++ " " ++ to_string p.chanPort ++ " " ++ to_string time)
  (stoi r.1, { p with sock := r.2.1 }, r.2.2)

/-- The enumerators of `enum Memory` in `pruss.h`; a `Memory` argument is
carried as its integer value, since C++ lets it hold other values too. -/
def DATA0 : Int := 0

/-- The enumerator `DATA1` of `enum Memory`. -/
def DATA1 : Int := 1

/-- The enumerator `SHARED` of `enum Memory`. -/
def SHARED : Int := 3

/-- The member `PRU::mem_read`. -/
def PRU.mem_read (env : Env) (p : PRU) (t : Trace) (mem : Int) (offset : String) :
    String × PRU × Trace :=
  if mem = SHARED then
    let r := p.sock.sendcmd env t ("MEMREAD_S " ++ offset)
    (r.1, { p with sock := r.2.1 }, r.2.2)
  else if mem = DATA0 ∨ mem = DATA1 then
    let r := p.sock.sendcmd env t ("MEMREAD_D" ++ to_string mem ++ " " ++ offset)
    (r.1, { p with sock := r.2.1 }, r.2.2)
  else (to_string (-EINVAL), p, t)

/-- The member `PRU::mem_write`. -/
def PRU.mem_write (env : Env) (p : PRU) (t : Trace) (mem : Int) (offset data : String) :
    String × PRU × Trace :=
  if mem = SHARED then
    let r := p.sock.sendcmd env t ("MEMWRITE_S " ++ offset ++ " " ++ data)
    (r.1, { p with sock := r.2.1 }, r.2.2)
  else if mem = DATA0 ∨ mem = DATA1 then
    let r := p.sock.sendcmd env t ("MEMWRITE_D" ++ to_string mem ++ " " ++ offset ++ " " ++ data)
    (r.1, { p with sock := r.2.1 }, r.2.2)
  else (to_string (-EINVAL), p, t)

/-- The constructor `PRU::PRU(int)`: the members start at their defaults
(`state = NONE`, a fresh `Socket`), then `setChannel()` and `reset()` run. -/
def PRU.new (env : Env) (t : Trace) (number : Int) : Ret PRU × Trace :=
  let p0 : PRU :=
    { number := number, chanPort := 0, chanName := "", sock := Socket.new, state := State.NONE }
  let r := (p0.setChannel).reset env t
  match r.1 with
  | Ret.throw e => (Ret.throw e, r.2.2)
  | Ret.ok _ => (Ret.ok r.2.1, r.2.2)

/-! ## `class PRUSS` -/

/-- The member `PRUSS::isOn`. -/
def PRUSS.isOn (s : PRUSS) : Bool := s.on_

/-- The member `PRUSS::bootUp`. -/
def PRUSS.bootUp (env : Env) (s : PRUSS) (t : Trace) : Ret Int × PRUSS × Trace :=
  if s.on_ = true then (Ret.ok (-EALREADY), s, t)
  else
    let r := s.sock.sendcmd env t "PROBE_RPROC"
    let s1 : PRUSS := { s with sock := r.2.1 }
    match stoi r.1 with
    | Ret.throw e => (Ret.throw e, s1, r.2.2)
    | Ret.ok ret =>
      if ret = 0 then
        (Ret.ok ret,
          { s1 with on_ := true,
                    pru0 := { s1.pru0 with state := State.STOPPED },
                    pru1 := { s1.pru1 with state := State.STOPPED } }, r.2.2)
      else (Ret.ok ret, s1, r.2.2)

/-- The member `PRUSS::shutDown`. -/
def PRUSS.shutDown (env : Env) (s : PRUSS) (t : Trace) : Ret Int × PRUSS × Trace :=
  if s.on_ = false then (Ret.ok (-EALREADY), s, t)
  else
    let d0 := s.pru0.disable env t
    let s1 : PRUSS := { s with pru0 := d0.2.1 }
    match d0.1 with
    | Ret.throw e => (Ret.throw e, s1, d0.2.2)
    | Ret.ok _ =>
      let d1 := s1.pru1.disable env d0.2.2
      let s2 : PRUSS := { s1 with pru1 := d1.2.1 }
      match d1.1 with
      | Ret.throw e => (Ret.throw e, s2, d1.2.2)
      | Ret.ok _ =>
        let r := s2.sock.sendcmd env d1.2.2 "UNPROBE_RPROC"
        let s3 : PRUSS := { s2 with sock := r.2.1 }
        match stoi r.1 with
        | Ret.throw e => (Ret.throw e, s3, r.2.2)
        | Ret.ok ret =>
          if ret = 0 then
            (Ret.ok ret,
              { s3 with on_ := false,
                        pru0 := { s3.pru0 with state := State.NONE },
                        pru1 := { s3.pru1 with state := State.NONE } }, r.2.2)
          else (Ret.ok ret, s3, r.2.2)

/-- The member `PRUSS::restart`: both results are dropped; an exception leaving
`shutDown` skips `bootUp`. -/
def PRUSS.restart (env : Env) (s : PRUSS) (t : Trace) : Ret Unit × PRUSS × Trace :=
  let d := s.shutDown env t
  match d.1 with
  | Ret.throw e => (Ret.throw e, d.2.1, d.2.2)
  | Ret.ok _ =>
    let b := d.2.1.bootUp env d.2.2
    match b.1 with
    | Ret.throw e => (Ret.throw e, b.2.1, b.2.2)
    | Ret.ok _ => (Ret.ok (), b.2.1, b.2.2)

/-- The constructor `PRUSS::PRUSS`: the members `on = false` and `sock` are
initialised, then `pru0(0)` and `pru1(1)` are built, then the body runs. An
exception leaves no object behind. -/
def PRUSS.new (env : Env) (t : Trace) : Ret PRUSS × Trace :=
  let c0 := PRU.new env t 0
  match c0.1 with
  | Ret.throw e => (Ret.throw e, c0.2)
  | Ret.ok pru0 =>
    let c1 := PRU.new env c0.2 1
    match c1.1 with
    | Ret.throw e => (Ret.throw e, c1.2)
    | Ret.ok pru1 =>
      let s0 : PRUSS := { on_ := false, sock := Socket.new, pru0 := pru0, pru1 := pru1 }
      let r0 := s0.sock.sendcmd env c1.2 "DISABLE_0"
      let s1 : PRUSS := { s0 with sock := r0.2.1 }
      let r1 := s1.sock.sendcmd env r0.2.2 "DISABLE_1"
      let s2 : PRUSS := { s1 with sock := r1.2.1 }
      let b := s2.bootUp env r1.2.2
      match b.1 with
      | Ret.throw e => (Ret.throw e, b.2.2)
      | Ret.ok _ => (Ret.ok b.2.1, b.2.2)

/-! ## Sequences of public calls -/

/-- The public members of `class PRU`, with their arguments. -/
inductive CoreAction where
  | enable
  | disable
  | reset
  | pause
  | resume
  | showRegs
  | load (fw : String)
  | setChannel
  | setChannelTo (port : Int) (name : String)
  | getState
  | sendMsg_string (message : String)
  | sendMsg_raw (message : String)
  | getMsg
  | waitForEvent
  | waitForEventFor (time : Int)
  | mem_read (mem : Int) (offset : String)
  | mem_write (mem : Int) (offset data : String)
  deriving DecidableEq, Repr

/-- The public interface of `class PRUSS`: its own members and the members of
the two public fields `pru0` and `pru1`. -/
inductive Action where
  | isOn
  | bootUp
  | shutDown
  | restart
  | pru0 (a : CoreAction)
  | pru1 (a : CoreAction)
  deriving DecidableEq, Repr

/-- Effect of one call on a core: the returned value is dropped, the object
and the trace are kept (also when the call throws and the caller catches). -/
def PRU.act (env : Env) (p : PRU) (t : Trace) : CoreAction → PRU × Trace
  | CoreAction.enable => (p.enable env t).2
  | CoreAction.disable => (p.disable env t).2
  | CoreAction.reset => (p.reset env t).2
  | CoreAction.pause => (p.pause env t).2
  | CoreAction.resume => (p.resume env t).2
  | CoreAction.showRegs => (p.showRegs env t).2
  | CoreAction.load fw => (p.load env t fw).2
  | CoreAction.setChannel => (p.setChannel, t)
  | CoreAction.setChannelTo port name => ((p.setChannelTo port name).2, t)
  | CoreAction.getState => (p, t)
  | CoreAction.sendMsg_string m => (p.sendMsg_string env t m).2
  | CoreAction.sendMsg_raw m => p.sendMsg_raw env t m
  | CoreAction.getMsg => (p.getMsg env t).2
  | CoreAction.waitForEvent => (p.waitForEvent env t).2
  | CoreAction.waitForEventFor time => (p.waitForEventFor env t time).2
  | CoreAction.mem_read mem offset => (p.mem_read env t mem offset).2
  | CoreAction.mem_write mem offset data => (p.mem_write env t mem offset data).2

/-- Effect of one public call on the controller. -/
def PRUSS.act (env : Env) (s : PRUSS) (t : Trace) : Action → PRUSS × Trace
  | Action.isOn => (s, t)
  | Action.bootUp => (s.bootUp env t).2
  | Action.shutDown => (s.shutDown env t).2
  | Action.restart => (s.restart env t).2
  | Action.pru0 a => ({ s with pru0 := (s.pru0.act env t a).1 }, (s.pru0.act env t a).2)
  | Action.pru1 a => ({ s with pru1 := (s.pru1.act env t a).1 }, (s.pru1.act env t a).2)

/-- Effect of a sequence of public calls, first call first. -/
def PRUSS.run (env : Env) (s : PRUSS) (t : Trace) : List Action → PRUSS × Trace
  | [] => (s, t)
  | a :: rest => PRUSS.run env (s.act env t a).1 (s.act env t a).2 rest

/-- The controller invariant of the data model: an off subsystem has both
cores in `NONE`. -/
def PRUSS.Inv (s : PRUSS) : Prop :=
  s.on_ = false → s.pru0.state = State.NONE ∧ s.pru1.state = State.NONE

/-- An environment in which every connection succeeds and the daemon answers
`0` to every command. -/
def zeroEnv : Env :=
  { socket := fun _ => 3
    connect := fun _ => true
    junk := fun _ => []
    recv := fun _ _ => ['0']
    realpath := fun fw => fw }

/-- An environment in which every connection succeeds and the daemon answers
`-5` to every command. -/
def failEnv : Env :=
  { socket := fun _ => 3
    connect := fun _ => true
    junk := fun _ => []
    recv := fun _ _ => ['-', '5']
    realpath := fun fw => fw }

/-- A core object with index `n` in lifecycle state `st`. -/
def coreIn (n : Int) (st : State) : PRU :=
  { number := n, chanPort := n, chanName := "pruss_api_pru", sock := Socket.new, state := st }

/-- An environment in which every connection succeeds and the daemon answers
`-5` to every `LOAD_` command and `0` to every other command. -/
def loadFailEnv : Env :=
  { socket := fun _ => 3
    connect := fun _ => true
    junk := fun _ => []
    recv := fun _ c => if c.data.take 5 = ['L', 'O', 'A', 'D', '_'] then ['-', '5'] else ['0']
    realpath := fun fw => fw }

/-- The controller object as construction leaves it when the probe succeeds:
subsystem on, both cores STOPPED on their default channels. -/
def bootedController : PRUSS :=
  { on_ := true
    sock := { fd := -1 }
    pru0 := { number := 0, chanPort := 0, chanName := "pruss_api_pru", sock := Socket.new,
              state := State.STOPPED }
    pru1 := { number := 1, chanPort := 1, chanName := "pruss_api_pru", sock := Socket.new,
              state := State.STOPPED } }

/-- A controller object with the subsystem off and both cores in NONE. -/
def offController : PRUSS :=
  { on_ := false
    sock := Socket.new
    pru0 := { number := 0, chanPort := 0, chanName := "pruss_api_pru", sock := Socket.new,
              state := State.NONE }
    pru1 := { number := 1, chanPort := 1, chanName := "pruss_api_pru", sock := Socket.new,
              state := State.NONE } }

/-- An environment in which no connection can be established (the daemon is
not listening); `socket()` still hands out descriptor 3. -/
def refusedEnv : Env :=
  { socket := fun _ => 3
    connect := fun _ => false
    junk := fun _ => []
    recv := fun _ _ => ['0']
    realpath := fun fw => fw }

/-- A controller object with the subsystem on, core 0 RUNNING and core 1
HALTED. -/
def busyController : PRUSS :=
  { on_ := true
    sock := Socket.new
    pru0 := { number := 0, chanPort := 0, chanName := "pruss_api_pru", sock := Socket.new,
              state := State.RUNNING }
    pru1 := { number := 1, chanPort := 1, chanName := "pruss_api_pru", sock := Socket.new,
              state := State.HALTED } }

/-- An environment in which every connection succeeds and the daemon answers
the text `0abc` to every command. -/
def garbledEnv : Env :=
  { socket := fun _ => 3
    connect := fun _ => true
    junk := fun _ => []
    recv := fun _ _ => ['0', 'a', 'b', 'c']
    realpath := fun fw => fw }

/-- An environment in which every connection succeeds and the daemon answers
the text `OK` to every command. -/
def textEnv : Env :=
  { socket := fun _ => 3
    connect := fun _ => true
    junk := fun _ => []
    recv := fun _ _ => ['O', 'K']
    realpath := fun fw => fw }

/-- An environment in which every connection succeeds and the daemon answers
`-5` to `UNPROBE_RPROC` and `0` to every other command. -/
def unprobeFailEnv : Env :=
  { socket := fun _ => 3
    connect := fun _ => true
    junk := fun _ => []
    recv := fun _ c => if c = "UNPROBE_RPROC" then ['-', '5'] else ['0']
    realpath := fun fw => fw }

/-- An environment in which every connection succeeds and the daemon answers
`0` to every `LOAD_` command and `-5` to every other command. -/
def loadOnlyEnv : Env :=
  { socket := fun _ => 3
    connect := fun _ => true
    junk := fun _ => []
    recv := fun _ c => if c.data.take 5 = ['L', 'O', 'A', 'D', '_'] then ['0'] else ['-', '5']
    realpath := fun fw => fw }

/-- An environment in which every connection succeeds and the daemon answers
the text `OK` to `UNPROBE_RPROC` and `0` to every other command. -/
def unprobeTextEnv : Env :=
  { socket := fun _ => 3
    connect := fun _ => true
    junk := fun _ => []
    recv := fun _ c => if c = "UNPROBE_RPROC" then ['O', 'K'] else ['0']
    realpath := fun fw => fw }

/-! ## Facts about the transport -/

theorem commands_append (t u : Trace) : commands (t ++ u) = commands t ++ commands u := by
  induction t with
  | nil => rfl
  | cons e t ih => cases e <;> simp [commands, ih]

theorem sendcmd_reply (env : Env) (s : Socket) (t : Trace) (c : String)
    (h : env.connect t = true) : (s.sendcmd env t c).1 = env.reply t c := by
  simp [Socket.sendcmd, Socket.conn, h]

theorem sendcmd_commands (env : Env) (s : Socket) (t : Trace) (c : String)
    (h : env.connect t = true) : commands (s.sendcmd env t c).2.2 = commands t ++ [c] := by
  simp only [Socket.sendcmd, Socket.conn, Socket.disconn, h]
  by_cases hfd : env.socket t = -1 <;> simp [hfd, commands_append, commands]

theorem sendcmd_refused (env : Env) (s : Socket) (t : Trace) (c : String)
    (h : env.connect t = false) :
    s.sendcmd env t c = (to_string ECONNREFUSED, { fd := env.socket t }, t ++ [Event.connect false]) := by
  simp [Socket.sendcmd, Socket.conn, h]

/-! ## Facts about `stoi` and `to_string` -/

theorem digitChar_isdigit (k : Nat) (h : k < 10) :
    isdigit (Nat.digitChar k) = true ∧ (Nat.digitChar k).toNat - 48 = k := by
  interval_cases k <;> decide

theorem isdigit_facts (c : Char) (h : isdigit c = true) :
    (c != NUL) = true ∧ isspace c = false ∧ c ≠ '-' ∧ c ≠ '+' := by
  simp only [isdigit, Bool.and_eq_true, decide_eq_true_eq] at h
  refine ⟨?_, ?_, ?_, ?_⟩
  · simp only [bne_iff_ne, ne_eq]
    intro hc
    rw [hc] at h
    simp [NUL] at h
  · simp only [isspace, Bool.or_eq_false_iff, decide_eq_false_iff_not, Bool.and_eq_false_imp,
      decide_eq_true_eq]
    omega
  · intro hc; rw [hc] at h; simp at h
  · intro hc; rw [hc] at h; simp at h

theorem toDigitsCore_spec (fuel : Nat) : ∀ (n : Nat) (ds : List Char), n < fuel →
    ∃ D : List Char, Nat.toDigitsCore 10 fuel n ds = D ++ ds ∧ D ≠ [] ∧
      (∀ c ∈ D, isdigit c = true) ∧
      ∀ (acc : Nat) (rest : List Char),
        digitsValue acc (D ++ rest) = digitsValue (acc * 10 ^ D.length + n) rest := by
  induction fuel with
  | zero => intro n ds h; omega
  | succ f ih =>
    intro n ds h
    have hd := digitChar_isdigit (n % 10) (Nat.mod_lt _ (by decide))
    simp only [Nat.toDigitsCore]
    by_cases h0 : n / 10 = 0
    · simp only [h0, if_true]
      refine ⟨[Nat.digitChar (n % 10)], rfl, by simp, ?_, ?_⟩
      · intro c hc
        simp only [List.mem_singleton] at hc
        rw [hc]; exact hd.1
      · intro acc rest
        have hn : n % 10 = n := Nat.mod_eq_of_lt (by omega)
        rw [hn] at hd ⊢
        simp [digitsValue, hd.1, hd.2]
    · simp only [h0, if_false]
      have hlt : n / 10 < f := by omega
      obtain ⟨D, hD, hne, hdig, hval⟩ := ih (n / 10) (Nat.digitChar (n % 10) :: ds) hlt
      refine ⟨D ++ [Nat.digitChar (n % 10)], by simp [hD], by simp, ?_, ?_⟩
      · intro c hc
        simp only [List.mem_append, List.mem_singleton] at hc
        rcases hc with hc | hc
        · exact hdig c hc
        · rw [hc]; exact hd.1
      · intro acc rest
        rw [List.append_assoc, hval]
        simp only [List.singleton_append, digitsValue, hd.1, if_true, hd.2, List.length_append,
          List.length_singleton]
        congr 1
        have := Nat.div_add_mod n 10
        rw [pow_succ]
        nlinarith [Nat.div_add_mod n 10]

theorem stoi_digits (D : List Char) (hne : D ≠ []) (hdig : ∀ c ∈ D, isdigit c = true) :
    c_str (String.mk D) = D ∧ (c_str (String.mk D)).dropWhile isspace = D := by
  have h1 : c_str (String.mk D) = D := by
    simp only [c_str]
    rw [List.takeWhile_eq_self_iff]
    intro c hc
    exact (isdigit_facts c (hdig c hc)).1
  refine ⟨h1, ?_⟩
  rw [h1]
  cases D with
  | nil => exact absurd rfl hne
  | cons d r =>
    have := (isdigit_facts d (hdig d (by simp))).2.1
    simp [List.dropWhile, this]

/-- The decimal text of an `int` parses back to it. -/
theorem stoi_to_string (k : Int) (hlo : INT_MIN ≤ k) (hhi : k ≤ INT_MAX) :
    stoi (to_string k) = Ret.ok k := by
  cases k with
  | ofNat n =>
    obtain ⟨D, hD, hne, hdig, hval⟩ := toDigitsCore_spec (n + 1) n [] (by omega)
    have hs : to_string (Int.ofNat n) = String.mk D := by
      show String.mk (Nat.toDigitsCore 10 (n + 1) n []) = String.mk D
      rw [hD, List.append_nil]
    obtain ⟨_, h2⟩ := stoi_digits D hne hdig
    have hv := hval 0 []
    simp only [List.append_nil, zero_mul, zero_add] at hv
    change _ = _ at hv
    simp only [digitsValue.eq_1] at hv
    cases hDc : D with
    | nil => exact absurd hDc hne
    | cons d r =>
      have hd := isdigit_facts d (hdig d (by simp [hDc]))
      have hdd : isdigit d = true := hdig d (by simp [hDc])
      rw [hDc] at h2 hv
      rw [hs, hDc]
      simp only [stoi, h2, hd.2.2.1, hd.2.2.2, if_false, hdd, if_true, hv]
      simp only [Int.ofNat_eq_coe] at hlo hhi ⊢
      simp [hlo, hhi]
  | negSucc m =>
    obtain ⟨D, hD, hne, hdig, hval⟩ := toDigitsCore_spec (m + 1 + 1) (m + 1) [] (by omega)
    have hs : to_string (Int.negSucc m) = String.mk ('-' :: D) := by
      show String.mk (("-" : String).data ++ Nat.toDigitsCore 10 (m + 1 + 1) (m + 1) [])
        = String.mk ('-' :: D)
      rw [hD, List.append_nil]
      rfl
    obtain ⟨h1, _⟩ := stoi_digits D hne hdig
    have hc : c_str (String.mk ('-' :: D)) = '-' :: D := by
      simp only [c_str] at h1 ⊢
      rw [List.takeWhile_cons_of_pos (by decide), h1]
    have hv := hval 0 []
    simp only [List.append_nil, zero_mul, zero_add] at hv
    change _ = _ at hv
    simp only [digitsValue.eq_1] at hv
    cases hDc : D with
    | nil => exact absurd hDc hne
    | cons d r =>
      have hdd : isdigit d = true := hdig d (by simp [hDc])
      rw [hDc] at hv hc
      have hsp : isspace '-' = false := by decide
      have hk : (Int.negSucc m) = -((m + 1 : Nat) : Int) := rfl
      rw [hs, hDc]
      simp only [stoi]
      rw [hc]
      simp only [List.dropWhile, hsp, if_true, hdd, hv]
      rw [hk] at hlo hhi ⊢
      rw [if_pos ⟨hlo, hhi⟩]

/-! ## Lifecycle transitions of a core -/

/-- C1: with a transport that connects and whose reply parses to 0, `enable`
from STOPPED ends in RUNNING, `disable` from RUNNING or HALTED ends in STOPPED,
`pause` from RUNNING ends in HALTED and `resume` from HALTED ends in RUNNING;
each call returns 0 and sends exactly one command, the operation name followed
by the core index. -/
theorem lifecycle_success (env : Env) (p : PRU) (t : Trace) (hc : env.connect t = true) :
    (p.state = State.STOPPED →
      stoi (env.reply t ("ENABLE_" ++ to_string p.number)) = Ret.ok 0 →
      (p.enable env t).1 = Ret.ok 0 ∧ (p.enable env t).2.1.state = State.RUNNING ∧
      commands (p.enable env t).2.2 = commands t ++ ["ENABLE_" ++ to_string p.number]) ∧
    ((p.state = State.RUNNING ∨ p.state = State.HALTED) →
      stoi (env.reply t ("DISABLE_" ++ to_string p.number)) = Ret.ok 0 →
      (p.disable env t).1 = Ret.ok 0 ∧ (p.disable env t).2.1.state = State.STOPPED ∧
      commands (p.disable env t).2.2 = commands t ++ ["DISABLE_" ++ to_string p.number]) ∧
    (p.state = State.RUNNING →
      stoi (env.reply t ("PAUSE_" ++ to_string p.number)) = Ret.ok 0 →
      (p.pause env t).1 = Ret.ok 0 ∧ (p.pause env t).2.1.state = State.HALTED ∧
      commands (p.pause env t).2.2 = commands t ++ ["PAUSE_" ++ to_string p.number]) ∧
    (p.state = State.HALTED →
      stoi (env.reply t ("RESUME_" ++ to_string p.number)) = Ret.ok 0 →
      (p.resume env t).1 = Ret.ok 0 ∧ (p.resume env t).2.1.state = State.RUNNING ∧
      commands (p.resume env t).2.2 = commands t ++ ["RESUME_" ++ to_string p.number]) := by
  refine ⟨?_, ?_, ?_, ?_⟩
  · intro hs h0
    have hr := sendcmd_reply env p.sock t ("ENABLE_" ++ to_string p.number) hc
    have hk := sendcmd_commands env p.sock t ("ENABLE_" ++ to_string p.number) hc
    simp [PRU.enable, hs, hr, h0, hk]
  · intro hs h0
    have hr := sendcmd_reply env p.sock t ("DISABLE_" ++ to_string p.number) hc
    have hk := sendcmd_commands env p.sock t ("DISABLE_" ++ to_string p.number) hc
    rcases hs with hs | hs <;> simp [PRU.disable, hs, hr, h0, hk]
  · intro hs h0
    have hr := sendcmd_reply env p.sock t ("PAUSE_" ++ to_string p.number) hc
    have hk := sendcmd_commands env p.sock t ("PAUSE_" ++ to_string p.number) hc
    simp [PRU.pause, hs, hr, h0, hk]
  · intro hs h0
    have hr := sendcmd_reply env p.sock t ("RESUME_" ++ to_string p.number) hc
    have hk := sendcmd_commands env p.sock t ("RESUME_" ++ to_string p.number) hc
    simp [PRU.resume, hs, hr, h0, hk]

/-- Witness for C1: the four transitions of `lifecycle_success` on concrete
cores against the all-zero daemon. -/
theorem lifecycle_success_witness :
    (((coreIn 0 State.STOPPED).enable zeroEnv []).1 = Ret.ok 0 ∧
      ((coreIn 0 State.STOPPED).enable zeroEnv []).2.1.state = State.RUNNING ∧
      commands ((coreIn 0 State.STOPPED).enable zeroEnv []).2.2 = ["ENABLE_0"]) ∧
    (((coreIn 1 State.HALTED).disable zeroEnv []).1 = Ret.ok 0 ∧
      ((coreIn 1 State.HALTED).disable zeroEnv []).2.1.state = State.STOPPED ∧
      commands ((coreIn 1 State.HALTED).disable zeroEnv []).2.2 = ["DISABLE_1"]) ∧
    (((coreIn 1 State.RUNNING).pause zeroEnv []).1 = Ret.ok 0 ∧
      ((coreIn 1 State.RUNNING).pause zeroEnv []).2.1.state = State.HALTED ∧
      commands ((coreIn 1 State.RUNNING).pause zeroEnv []).2.2 = ["PAUSE_1"]) ∧
    (((coreIn 0 State.HALTED).resume zeroEnv []).1 = Ret.ok 0 ∧
      ((coreIn 0 State.HALTED).resume zeroEnv []).2.1.state = State.RUNNING ∧
      commands ((coreIn 0 State.HALTED).resume zeroEnv []).2.2 = ["RESUME_0"]) :=
  ⟨(lifecycle_success zeroEnv (coreIn 0 State.STOPPED) [] rfl).1 rfl (by decide),
   (lifecycle_success zeroEnv (coreIn 1 State.HALTED) [] rfl).2.1 (Or.inr rfl) (by decide),
   (lifecycle_success zeroEnv (coreIn 1 State.RUNNING) [] rfl).2.2.1 rfl (by decide),
   (lifecycle_success zeroEnv (coreIn 0 State.HALTED) [] rfl).2.2.2 rfl (by decide)⟩

/-- C2: for every lifecycle state and each of `enable`, `disable`, `pause`,
`resume`: when the daemon's reply parses to a non-zero integer `k`, the
lifecycle state after the call is the state before it; in the states from
which the call reaches the daemon it returns `k` after sending its one
command, and in the other states nothing is sent at all. -/
theorem lifecycle_failure (env : Env) (p : PRU) (t : Trace) (k : Int) (hk : k ≠ 0)
    (hc : env.connect t = true) :
    (stoi (env.reply t ("ENABLE_" ++ to_string p.number)) = Ret.ok k →
      (p.enable env t).2.1.state = p.state ∧
      (p.state = State.STOPPED → (p.enable env t).1 = Ret.ok k ∧
        commands (p.enable env t).2.2 = commands t ++ ["ENABLE_" ++ to_string p.number]) ∧
      (p.state ≠ State.STOPPED → (p.enable env t).2.2 = t)) ∧
    (stoi (env.reply t ("DISABLE_" ++ to_string p.number)) = Ret.ok k →
      (p.disable env t).2.1.state = p.state ∧
      (p.state = State.RUNNING ∨ p.state = State.HALTED → (p.disable env t).1 = Ret.ok k ∧
        commands (p.disable env t).2.2 = commands t ++ ["DISABLE_" ++ to_string p.number]) ∧
      (p.state = State.NONE ∨ p.state = State.STOPPED → (p.disable env t).2.2 = t)) ∧
    (stoi (env.reply t ("PAUSE_" ++ to_string p.number)) = Ret.ok k →
      (p.pause env t).2.1.state = p.state ∧
      (p.state = State.STOPPED ∨ p.state = State.RUNNING → (p.pause env t).1 = Ret.ok k ∧
        commands (p.pause env t).2.2 = commands t ++ ["PAUSE_" ++ to_string p.number]) ∧
      (p.state = State.NONE ∨ p.state = State.HALTED → (p.pause env t).2.2 = t)) ∧
    (stoi (env.reply t ("RESUME_" ++ to_string p.number)) = Ret.ok k →
      (p.resume env t).2.1.state = p.state ∧
      (p.state = State.HALTED → (p.resume env t).1 = Ret.ok k ∧
        commands (p.resume env t).2.2 = commands t ++ ["RESUME_" ++ to_string p.number]) ∧
      (p.state ≠ State.HALTED → (p.resume env t).2.2 = t)) := by
  refine ⟨?_, ?_, ?_, ?_⟩
  · intro h
    have hr := sendcmd_reply env p.sock t ("ENABLE_" ++ to_string p.number) hc
    have hs := sendcmd_commands env p.sock t ("ENABLE_" ++ to_string p.number) hc
    rcases hst : p.state <;> simp [PRU.enable, hst, hr, h, hk, hs]
  · intro h
    have hr := sendcmd_reply env p.sock t ("DISABLE_" ++ to_string p.number) hc
    have hs := sendcmd_commands env p.sock t ("DISABLE_" ++ to_string p.number) hc
    rcases hst : p.state <;> simp [PRU.disable, hst, hr, h, hk, hs]
  · intro h
    have hr := sendcmd_reply env p.sock t ("PAUSE_" ++ to_string p.number) hc
    have hs := sendcmd_commands env p.sock t ("PAUSE_" ++ to_string p.number) hc
    rcases hst : p.state <;> simp [PRU.pause, hst, hr, h, hk, hs]
  · intro h
    have hr := sendcmd_reply env p.sock t ("RESUME_" ++ to_string p.number) hc
    have hs := sendcmd_commands env p.sock t ("RESUME_" ++ to_string p.number) hc
    rcases hst : p.state <;> simp [PRU.resume, hst, hr, h, hk, hs]

/-- Witness for C2: a RUNNING core against a daemon that answers -5 to every
command; `enable` is stopped by its guard, the other three calls return -5. -/
theorem lifecycle_failure_witness :
    (((coreIn 0 State.RUNNING).enable failEnv []).2.1.state = State.RUNNING ∧
      ((coreIn 0 State.RUNNING).enable failEnv []).2.2 = []) ∧
    (((coreIn 0 State.RUNNING).disable failEnv []).2.1.state = State.RUNNING ∧
      ((coreIn 0 State.RUNNING).disable failEnv []).1 = Ret.ok (-5) ∧
      commands ((coreIn 0 State.RUNNING).disable failEnv []).2.2 = ["DISABLE_0"]) ∧
    (((coreIn 0 State.RUNNING).pause failEnv []).2.1.state = State.RUNNING ∧
      ((coreIn 0 State.RUNNING).pause failEnv []).1 = Ret.ok (-5) ∧
      commands ((coreIn 0 State.RUNNING).pause failEnv []).2.2 = ["PAUSE_0"]) ∧
    (((coreIn 0 State.HALTED).resume failEnv []).2.1.state = State.HALTED ∧
      ((coreIn 0 State.HALTED).resume failEnv []).1 = Ret.ok (-5) ∧
      commands ((coreIn 0 State.HALTED).resume failEnv []).2.2 = ["RESUME_0"]) :=
  have hR := lifecycle_failure failEnv (coreIn 0 State.RUNNING) [] (-5) (by decide) rfl
  have hH := lifecycle_failure failEnv (coreIn 0 State.HALTED) [] (-5) (by decide) rfl
  ⟨⟨(hR.1 (by decide)).1, (hR.1 (by decide)).2.2 (by decide)⟩,
   ⟨(hR.2.1 (by decide)).1, (hR.2.1 (by decide)).2.1 (Or.inl rfl)⟩,
   ⟨(hR.2.2.1 (by decide)).1, (hR.2.2.1 (by decide)).2.1 (Or.inr rfl)⟩,
   ⟨(hH.2.2.2 (by decide)).1, (hH.2.2.2 (by decide)).2.1 rfl⟩⟩

/-- C3: state errors are detected locally: `enable` returns -ENODEV from NONE
and -EALREADY from RUNNING or HALTED; `disable` returns -ENODEV from NONE and
-EALREADY from STOPPED; `pause` returns -ENODEV from NONE and -EALREADY from
HALTED; `resume` returns -ENODEV from NONE or STOPPED and -EALREADY from
RUNNING. In each case the object and the transport trace are left exactly as
they were, so no command is sent and the lifecycle state is unchanged. -/
theorem state_errors_local (env : Env) (p : PRU) (t : Trace) :
    (p.state = State.NONE → p.enable env t = (Ret.ok (-ENODEV), p, t)) ∧
    (p.state = State.RUNNING ∨ p.state = State.HALTED →
      p.enable env t = (Ret.ok (-EALREADY), p, t)) ∧
    (p.state = State.NONE → p.disable env t = (Ret.ok (-ENODEV), p, t)) ∧
    (p.state = State.STOPPED → p.disable env t = (Ret.ok (-EALREADY), p, t)) ∧
    (p.state = State.NONE → p.pause env t = (Ret.ok (-ENODEV), p, t)) ∧
    (p.state = State.HALTED → p.pause env t = (Ret.ok (-EALREADY), p, t)) ∧
    (p.state = State.NONE ∨ p.state = State.STOPPED →
      p.resume env t = (Ret.ok (-ENODEV), p, t)) ∧
    (p.state = State.RUNNING → p.resume env t = (Ret.ok (-EALREADY), p, t)) := by
  refine ⟨?_, ?_, ?_, ?_, ?_, ?_, ?_, ?_⟩
  · intro h; simp [PRU.enable, h]
  · intro h; rcases h with h | h <;> simp [PRU.enable, h]
  · intro h; simp [PRU.disable, h]
  · intro h; simp [PRU.disable, h]
  · intro h; simp [PRU.pause, h]
  · intro h; simp [PRU.pause, h]
  · intro h; rcases h with h | h <;> simp [PRU.resume, h]
  · intro h; simp [PRU.resume, h]

/-- Witness for C3: the eight guarded cases on concrete cores, with a daemon
that would have answered 0. -/
theorem state_errors_local_witness :
    (coreIn 0 State.NONE).enable zeroEnv [] = (Ret.ok (-19), coreIn 0 State.NONE, []) ∧
    (coreIn 0 State.HALTED).enable zeroEnv [] = (Ret.ok (-114), coreIn 0 State.HALTED, []) ∧
    (coreIn 0 State.NONE).disable zeroEnv [] = (Ret.ok (-19), coreIn 0 State.NONE, []) ∧
    (coreIn 0 State.STOPPED).disable zeroEnv [] = (Ret.ok (-114), coreIn 0 State.STOPPED, []) ∧
    (coreIn 0 State.NONE).pause zeroEnv [] = (Ret.ok (-19), coreIn 0 State.NONE, []) ∧
    (coreIn 0 State.HALTED).pause zeroEnv [] = (Ret.ok (-114), coreIn 0 State.HALTED, []) ∧
    (coreIn 0 State.STOPPED).resume zeroEnv [] = (Ret.ok (-19), coreIn 0 State.STOPPED, []) ∧
    (coreIn 0 State.RUNNING).resume zeroEnv [] = (Ret.ok (-114), coreIn 0 State.RUNNING, []) :=
  ⟨(state_errors_local zeroEnv (coreIn 0 State.NONE) []).1 rfl,
   (state_errors_local zeroEnv (coreIn 0 State.HALTED) []).2.1 (Or.inr rfl),
   (state_errors_local zeroEnv (coreIn 0 State.NONE) []).2.2.1 rfl,
   (state_errors_local zeroEnv (coreIn 0 State.STOPPED) []).2.2.2.1 rfl,
   (state_errors_local zeroEnv (coreIn 0 State.NONE) []).2.2.2.2.1 rfl,
   (state_errors_local zeroEnv (coreIn 0 State.HALTED) []).2.2.2.2.2.1 rfl,
   (state_errors_local zeroEnv (coreIn 0 State.STOPPED) []).2.2.2.2.2.2.1 (Or.inr rfl),
   (state_errors_local zeroEnv (coreIn 0 State.RUNNING) []).2.2.2.2.2.2.2 rfl⟩

/-- C4 (the code departs from the claim): `pause` has no guard for STOPPED.
On a STOPPED core and a daemon answering 0, `pause` sends `PAUSE_0`, returns 0
and moves the core to HALTED; a following `resume` then reports RUNNING
although no `ENABLE_0` was ever sent, whereas `resume` itself refuses a
STOPPED core with -ENODEV. -/
theorem pause_from_stopped :
    ((coreIn 0 State.STOPPED).pause zeroEnv []).1 = Ret.ok 0 ∧
    ((coreIn 0 State.STOPPED).pause zeroEnv []).2.1.state = State.HALTED ∧
    commands ((coreIn 0 State.STOPPED).pause zeroEnv []).2.2 = ["PAUSE_0"] ∧
    (((coreIn 0 State.STOPPED).pause zeroEnv []).2.1.resume zeroEnv
        ((coreIn 0 State.STOPPED).pause zeroEnv []).2.2).2.1.state = State.RUNNING ∧
    commands (((coreIn 0 State.STOPPED).pause zeroEnv []).2.1.resume zeroEnv
        ((coreIn 0 State.STOPPED).pause zeroEnv []).2.2).2.2 = ["PAUSE_0", "RESUME_0"] ∧
    ((coreIn 0 State.STOPPED).resume zeroEnv []).1 = Ret.ok (-ENODEV) := by
  decide

/-! ### `reset` -/

theorem enable_from_stopped (env : Env) (p : PRU) (t : Trace) (hs : p.state = State.STOPPED)
    (hc : env.connect t = true)
    (h0 : stoi (env.reply t ("ENABLE_" ++ to_string p.number)) = Ret.ok 0) :
    p.enable env t =
      (Ret.ok 0,
        { p with sock := (p.sock.sendcmd env t ("ENABLE_" ++ to_string p.number)).2.1,
                 state := State.RUNNING },
        (p.sock.sendcmd env t ("ENABLE_" ++ to_string p.number)).2.2) := by
  have hr := sendcmd_reply env p.sock t ("ENABLE_" ++ to_string p.number) hc
  simp [PRU.enable, hs, hr, h0]

theorem disable_from_started (env : Env) (p : PRU) (t : Trace)
    (hs : p.state = State.RUNNING ∨ p.state = State.HALTED)
    (hc : env.connect t = true)
    (h0 : stoi (env.reply t ("DISABLE_" ++ to_string p.number)) = Ret.ok 0) :
    p.disable env t =
      (Ret.ok 0,
        { p with sock := (p.sock.sendcmd env t ("DISABLE_" ++ to_string p.number)).2.1,
                 state := State.STOPPED },
        (p.sock.sendcmd env t ("DISABLE_" ++ to_string p.number)).2.2) := by
  have hr := sendcmd_reply env p.sock t ("DISABLE_" ++ to_string p.number) hc
  rcases hs with hs | hs <;> simp [PRU.disable, hs, hr, h0]

/-- C5 as stated fails: from NONE, with a daemon that answers 0 to every
command, `reset` returns -ENODEV, sends nothing and leaves the core in NONE. -/
theorem reset_from_none_counterexample :
    (∀ t c, zeroEnv.connect t = true ∧ stoi (zeroEnv.reply t c) = Ret.ok 0) ∧
    ((coreIn 0 State.NONE).reset zeroEnv []).1 = Ret.ok (-19) ∧
    ((coreIn 0 State.NONE).reset zeroEnv []).2.1.state = State.NONE ∧
    ((coreIn 0 State.NONE).reset zeroEnv []).2.2 = [] ∧
    ¬ (((coreIn 0 State.NONE).reset zeroEnv []).1 = Ret.ok 0 ∧
       ((coreIn 0 State.NONE).reset zeroEnv []).2.1.state = State.RUNNING) := by
  refine ⟨fun t c => ⟨rfl, rfl⟩, by decide, by decide, by decide, by decide⟩

/-- C5 (amended): from STOPPED, RUNNING or HALTED, if every connection succeeds
and the daemon answers 0 to every `DISABLE_n` and `ENABLE_n`, `reset` returns 0
and the core ends in RUNNING; `DISABLE_n` is sent only when the core was not
already STOPPED, and `ENABLE_n` is sent last. From NONE, whatever the
environment, `reset` returns -ENODEV and leaves the object and the transport
trace exactly as they were, so nothing is sent and the core stays in NONE. -/
theorem reset_ends_running (env : Env) (p : PRU) (t : Trace) :
    (p.state = State.NONE → p.reset env t = (Ret.ok (-ENODEV), p, t)) ∧
    (p.state = State.STOPPED ∨ p.state = State.RUNNING ∨ p.state = State.HALTED →
      (∀ u, env.connect u = true) →
      (∀ u, stoi (env.reply u ("DISABLE_" ++ to_string p.number)) = Ret.ok 0) →
      (∀ u, stoi (env.reply u ("ENABLE_" ++ to_string p.number)) = Ret.ok 0) →
      (p.reset env t).1 = Ret.ok 0 ∧ (p.reset env t).2.1.state = State.RUNNING ∧
      commands (p.reset env t).2.2 =
        commands t
          ++ (if p.state = State.STOPPED then [] else ["DISABLE_" ++ to_string p.number])
          ++ ["ENABLE_" ++ to_string p.number]) := by
  refine ⟨?_, ?_⟩
  · intro hn
    simp [PRU.reset, PRU.disable, PRU.enable, hn]
  · intro hs hc hd he
    rcases hs with hs | hs
    · have hd0 : p.disable env t = (Ret.ok (-EALREADY), p, t) := by simp [PRU.disable, hs]
      have he0 := enable_from_stopped env p t hs (hc t) (he t)
      simp [PRU.reset, hd0, he0, hs, sendcmd_commands _ _ _ _ (hc t)]
    · have hd0 := disable_from_started env p t hs (hc t) (hd t)
      have he0 := enable_from_stopped env (p.disable env t).2.1 (p.disable env t).2.2
        (by rw [hd0]) (hc _) (by rw [hd0]; exact he _)
      have hne : p.state ≠ State.STOPPED := by rcases hs with hs | hs <;> simp [hs]
      have h1 : (p.reset env t) = (p.disable env t).2.1.enable env (p.disable env t).2.2 := by
        simp [PRU.reset, hd0]
      rw [h1, he0]
      simp [hd0, hne, sendcmd_commands _ _ _ _ (hc _)]

/-- Witness for C5 (amended): a HALTED core and a core in NONE with index 1
against the all-zero daemon, the latter on a trace that is not empty. -/
theorem reset_ends_running_witness :
    (((coreIn 0 State.HALTED).reset zeroEnv []).1 = Ret.ok 0 ∧
      ((coreIn 0 State.HALTED).reset zeroEnv []).2.1.state = State.RUNNING ∧
      commands ((coreIn 0 State.HALTED).reset zeroEnv []).2.2 = ["DISABLE_0", "ENABLE_0"]) ∧
    (coreIn 1 State.NONE).reset zeroEnv [Event.connect false]
      = (Ret.ok (-19), coreIn 1 State.NONE, [Event.connect false]) :=
  ⟨(reset_ends_running zeroEnv (coreIn 0 State.HALTED) []).2 (Or.inr (Or.inr rfl))
      (fun _ => rfl) (fun _ => rfl) (fun _ => rfl),
   (reset_ends_running zeroEnv (coreIn 1 State.NONE) [Event.connect false]).1 rfl⟩

/-! ### `load` -/

theorem enable_status (env : Env) (p : PRU) (t : Trace) (j : Int)
    (hs : p.state = State.STOPPED) (hc : env.connect t = true)
    (hj : stoi (env.reply t ("ENABLE_" ++ to_string p.number)) = Ret.ok j) :
    p.enable env t =
      (Ret.ok j,
        { p with sock := (p.sock.sendcmd env t ("ENABLE_" ++ to_string p.number)).2.1,
                 state := if j = 0 then State.RUNNING else State.STOPPED },
        (p.sock.sendcmd env t ("ENABLE_" ++ to_string p.number)).2.2) := by
  have hr := sendcmd_reply env p.sock t ("ENABLE_" ++ to_string p.number) hc
  by_cases h0 : j = 0
  · simp [PRU.enable, hs, hr, hj, h0]
  · simp [PRU.enable, hs, hr, hj, h0]

theorem load_statuses (env : Env) (p : PRU) (t : Trace) (fw : String) (k j : Int)
    (hs : p.state = State.STOPPED ∨ p.state = State.RUNNING ∨ p.state = State.HALTED)
    (hc : ∀ u, env.connect u = true)
    (hd : ∀ u, stoi (env.reply u ("DISABLE_" ++ to_string p.number)) = Ret.ok 0)
    (hl : ∀ u, stoi (env.reply u ("LOAD_" ++ to_string p.number ++ " " ++ env.realpath fw))
      = Ret.ok k)
    (he : ∀ u, stoi (env.reply u ("ENABLE_" ++ to_string p.number)) = Ret.ok j) :
    (p.load env t fw).1 = Ret.ok k ∧
    (p.load env t fw).2.1.state = (if j = 0 then State.RUNNING else State.STOPPED) ∧
    commands (p.load env t fw).2.2 =
      commands t ++ (if p.state = State.STOPPED then [] else ["DISABLE_" ++ to_string p.number])
        ++ ["LOAD_" ++ to_string p.number ++ " " ++ env.realpath fw,
            "ENABLE_" ++ to_string p.number] := by
  have hr : ∀ s u c, (Socket.sendcmd env s u c).1 = env.reply u c :=
    fun s u c => sendcmd_reply env s u c (hc u)
  have hk : ∀ s u c, commands (Socket.sendcmd env s u c).2.2 = commands u ++ [c] :=
    fun s u c => sendcmd_commands env s u c (hc u)
  have hen : ∀ (q : PRU) (u : Trace), q.number = p.number → q.state = State.STOPPED →
      (q.enable env u).1 = Ret.ok j ∧
      (q.enable env u).2.1.state = (if j = 0 then State.RUNNING else State.STOPPED) ∧
      commands (q.enable env u).2.2 = commands u ++ ["ENABLE_" ++ to_string p.number] := by
    intro q u hn hq
    rw [enable_status env q u j hq (hc u) (by rw [hn]; exact he u)]
    simp [hk, hn]
  rcases hs with hs | hs
  · have hd0 : p.disable env t = (Ret.ok (-EALREADY), p, t) := by simp [PRU.disable, hs]
    obtain ⟨e1, e2, e3⟩ := hen
      { p with sock := (p.sock.sendcmd env t
          ("LOAD_" ++ to_string p.number ++ " " ++ env.realpath fw)).2.1,
               state := State.STOPPED }
      (p.sock.sendcmd env t ("LOAD_" ++ to_string p.number ++ " " ++ env.realpath fw)).2.2
      rfl rfl
    simp only [PRU.load, hd0, hr, hl, e1, e2, e3, hk, hs]
    simp
  · have hd0 := disable_from_started env p t hs (hc t) (hd t)
    have hne : p.state ≠ State.STOPPED := by rcases hs with hs | hs <;> simp [hs]
    obtain ⟨e1, e2, e3⟩ := hen
      { p with sock := (Socket.sendcmd env
            (p.sock.sendcmd env t ("DISABLE_" ++ to_string p.number)).2.1
            (p.sock.sendcmd env t ("DISABLE_" ++ to_string p.number)).2.2
            ("LOAD_" ++ to_string p.number ++ " " ++ env.realpath fw)).2.1,
               state := State.STOPPED }
      (Socket.sendcmd env
            (p.sock.sendcmd env t ("DISABLE_" ++ to_string p.number)).2.1
            (p.sock.sendcmd env t ("DISABLE_" ++ to_string p.number)).2.2
            ("LOAD_" ++ to_string p.number ++ " " ++ env.realpath fw)).2.2
      rfl rfl
    simp only [PRU.load, hd0, hr, hl, e1, e2, e3, hk, hne]
    simp

/-- C6 as stated fails: on a STOPPED core, with a daemon that answers -5 to
the `LOAD_0` command and 0 to `ENABLE_0`, `load` returns -5, still sends
`ENABLE_0` after the failed install, and leaves the core RUNNING. -/
theorem load_failed_install_counterexample :
    ((coreIn 0 State.STOPPED).load loadFailEnv [] "fw.out").1 = Ret.ok (-5) ∧
    ((coreIn 0 State.STOPPED).load loadFailEnv [] "fw.out").2.1.state = State.RUNNING ∧
    commands ((coreIn 0 State.STOPPED).load loadFailEnv [] "fw.out").2.2
      = ["LOAD_0 fw.out", "ENABLE_0"] ∧
    ¬ (((coreIn 0 State.STOPPED).load loadFailEnv [] "fw.out").2.1.state = State.STOPPED ∧
       "ENABLE_0" ∉ commands ((coreIn 0 State.STOPPED).load loadFailEnv [] "fw.out").2.2) := by
  decide

/-- C6 (amended): for a core that is STOPPED, RUNNING or HALTED, with every
connection succeeding and `DISABLE_n` answered 0: if the `LOAD_n` reply is a
non-zero status `k` and the `ENABLE_n` reply is a status `j`, then `load`
returns `k`, `ENABLE_n` is still sent after the failed install, and the core
ends STOPPED exactly when `j` is non-zero and RUNNING exactly when `j` is 0. -/
theorem load_failed_install_still_enables (env : Env) (p : PRU) (t : Trace) (fw : String)
    (k j : Int)
    (hs : p.state = State.STOPPED ∨ p.state = State.RUNNING ∨ p.state = State.HALTED)
    (hc : ∀ u, env.connect u = true)
    (hd : ∀ u, stoi (env.reply u ("DISABLE_" ++ to_string p.number)) = Ret.ok 0)
    (hk : k ≠ 0)
    (hl : ∀ u, stoi (env.reply u ("LOAD_" ++ to_string p.number ++ " " ++ env.realpath fw))
      = Ret.ok k)
    (he : ∀ u, stoi (env.reply u ("ENABLE_" ++ to_string p.number)) = Ret.ok j) :
    (p.load env t fw).1 = Ret.ok k ∧ (p.load env t fw).1 ≠ Ret.ok 0 ∧
    commands (p.load env t fw).2.2 =
      commands t ++ (if p.state = State.STOPPED then [] else ["DISABLE_" ++ to_string p.number])
        ++ ["LOAD_" ++ to_string p.number ++ " " ++ env.realpath fw,
            "ENABLE_" ++ to_string p.number] ∧
    ((p.load env t fw).2.1.state = State.STOPPED ↔ j ≠ 0) ∧
    ((p.load env t fw).2.1.state = State.RUNNING ↔ j = 0) := by
  obtain ⟨h1, h2, h3⟩ := load_statuses env p t fw k j hs hc hd hl he
  refine ⟨h1, ?_, h3, ?_, ?_⟩
  · rw [h1]; simpa using hk
  · rw [h2]; by_cases h0 : j = 0 <;> simp [h0]
  · rw [h2]; by_cases h0 : j = 0 <;> simp [h0]

/-- Witness for C6 (amended): a RUNNING core, `LOAD_1` answered -5 and every
other command answered 0. -/
theorem load_failed_install_still_enables_witness :
    ((coreIn 1 State.RUNNING).load loadFailEnv [] "fw.out").1 = Ret.ok (-5) ∧
    commands ((coreIn 1 State.RUNNING).load loadFailEnv [] "fw.out").2.2
      = ["DISABLE_1", "LOAD_1 fw.out", "ENABLE_1"] ∧
    ((coreIn 1 State.RUNNING).load loadFailEnv [] "fw.out").2.1.state = State.RUNNING :=
  have h := load_failed_install_still_enables loadFailEnv (coreIn 1 State.RUNNING) [] "fw.out"
    (-5) 0 (Or.inr (Or.inl rfl)) (fun _ => rfl) (fun _ => rfl) (by decide)
    (fun _ => rfl) (fun _ => rfl)
  ⟨h.1, h.2.2.1, h.2.2.2.2.2 rfl⟩

/-- C7: for a core that is STOPPED, RUNNING or HALTED and every firmware path,
if every connection succeeds and the daemon answers 0 to the `DISABLE_n`,
`LOAD_n` and `ENABLE_n` commands, then `load` returns 0, the core ends RUNNING,
and the commands sent are, in order, `DISABLE_n` (only when the core was not
already STOPPED), `LOAD_n` followed by a blank and the resolved path, and
`ENABLE_n`. -/
theorem load_success (env : Env) (p : PRU) (t : Trace) (fw : String)
    (hs : p.state = State.STOPPED ∨ p.state = State.RUNNING ∨ p.state = State.HALTED)
    (hc : ∀ u, env.connect u = true)
    (hd : ∀ u, stoi (env.reply u ("DISABLE_" ++ to_string p.number)) = Ret.ok 0)
    (hl : ∀ u, stoi (env.reply u ("LOAD_" ++ to_string p.number ++ " " ++ env.realpath fw))
      = Ret.ok 0)
    (he : ∀ u, stoi (env.reply u ("ENABLE_" ++ to_string p.number)) = Ret.ok 0) :
    (p.load env t fw).1 = Ret.ok 0 ∧ (p.load env t fw).2.1.state = State.RUNNING ∧
    commands (p.load env t fw).2.2 =
      commands t ++ (if p.state = State.STOPPED then [] else ["DISABLE_" ++ to_string p.number])
        ++ ["LOAD_" ++ to_string p.number ++ " " ++ env.realpath fw,
            "ENABLE_" ++ to_string p.number] := by
  obtain ⟨h1, h2, h3⟩ := load_statuses env p t fw 0 0 hs hc hd hl he
  exact ⟨h1, by simpa using h2, h3⟩

/-- Witness for C7: a HALTED core and a STOPPED core against the all-zero
daemon. -/
theorem load_success_witness :
    (((coreIn 0 State.HALTED).load zeroEnv [] "/lib/fw.out").1 = Ret.ok 0 ∧
      ((coreIn 0 State.HALTED).load zeroEnv [] "/lib/fw.out").2.1.state = State.RUNNING ∧
      commands ((coreIn 0 State.HALTED).load zeroEnv [] "/lib/fw.out").2.2
        = ["DISABLE_0", "LOAD_0 /lib/fw.out", "ENABLE_0"]) ∧
    (((coreIn 1 State.STOPPED).load zeroEnv [] "/lib/fw.out").1 = Ret.ok 0 ∧
      ((coreIn 1 State.STOPPED).load zeroEnv [] "/lib/fw.out").2.1.state = State.RUNNING ∧
      commands ((coreIn 1 State.STOPPED).load zeroEnv [] "/lib/fw.out").2.2
        = ["LOAD_1 /lib/fw.out", "ENABLE_1"]) :=
  ⟨load_success zeroEnv (coreIn 0 State.HALTED) [] "/lib/fw.out" (Or.inr (Or.inr rfl))
      (fun _ => rfl) (fun _ => rfl) (fun _ => rfl) (fun _ => rfl),
   load_success zeroEnv (coreIn 1 State.STOPPED) [] "/lib/fw.out" (Or.inl rfl)
      (fun _ => rfl) (fun _ => rfl) (fun _ => rfl) (fun _ => rfl)⟩

/-! ## The controller -/

theorem core_act_keeps_none (env : Env) (p : PRU) (t : Trace) (a : CoreAction)
    (h : p.state = State.NONE) : (p.act env t a).1.state = State.NONE := by
  cases a with
  | enable => simp [PRU.act, PRU.enable, h]
  | disable => simp [PRU.act, PRU.disable, h]
  | reset => simp [PRU.act, PRU.reset, PRU.disable, PRU.enable, h]
  | pause => simp [PRU.act, PRU.pause, h]
  | resume => simp [PRU.act, PRU.resume, h]
  | showRegs => simp [PRU.act, PRU.showRegs, h]
  | load fw =>
    simp only [PRU.act, PRU.load, PRU.disable, h]
    simp only [if_true]
    cases hst : stoi (Socket.sendcmd env p.sock t
      ("LOAD_" ++ to_string p.number ++ " " ++ env.realpath fw)).1 with
    | throw e => simp [h]
    | ok v => simp [PRU.enable, h]
  | setChannel => simp [PRU.act, PRU.setChannel, h]
  | setChannelTo port name =>
    simp only [PRU.act, PRU.setChannelTo]
    split <;> simp [h]
  | getState => simp [PRU.act, h]
  | sendMsg_string m => simp [PRU.act, PRU.sendMsg_string, h]
  | sendMsg_raw m => simp [PRU.act, PRU.sendMsg_raw, h]
  | getMsg => simp [PRU.act, PRU.getMsg, h]
  | waitForEvent => simp [PRU.act, PRU.waitForEvent, h]
  | waitForEventFor time => simp [PRU.act, PRU.waitForEventFor, h]
  | mem_read mem offset =>
    simp only [PRU.act, PRU.mem_read]
    split_ifs <;> simp [h]
  | mem_write mem offset data =>
    simp only [PRU.act, PRU.mem_write]
    split_ifs <;> simp [h]

theorem bootUp_keeps_inv (env : Env) (s : PRUSS) (t : Trace) (h : s.Inv) :
    (s.bootUp env t).2.1.Inv := by
  unfold PRUSS.bootUp
  by_cases hon : s.on_ = true
  · simpa [hon] using h
  · simp only [hon]
    have hN := h (by simpa using hon)
    cases hst : stoi (Socket.sendcmd env s.sock t "PROBE_RPROC").1 with
    | throw e => simp [PRUSS.Inv, hN]
    | ok v =>
      by_cases hv : v = 0
      · simp [PRUSS.Inv, hv]
      · simp [PRUSS.Inv, hv, hN]

theorem shutDown_keeps_inv (env : Env) (s : PRUSS) (t : Trace) (h : s.Inv) :
    (s.shutDown env t).2.1.Inv := by
  unfold PRUSS.shutDown
  by_cases hon : s.on_ = false
  · simpa [hon] using h
  · have hon1 : s.on_ = true := by simpa using hon
    simp only [hon1]
    cases h0 : (s.pru0.disable env t).1 with
    | throw e => simp [PRUSS.Inv, hon1]
    | ok v0 =>
      cases h1 : (s.pru1.disable env (s.pru0.disable env t).2.2).1 with
      | throw e => simp [PRUSS.Inv, hon1]
      | ok v1 =>
        cases hst : stoi (Socket.sendcmd env s.sock
            (s.pru1.disable env (s.pru0.disable env t).2.2).2.2 "UNPROBE_RPROC").1 with
        | throw e => simp [PRUSS.Inv, hon1]
        | ok v =>
          by_cases hv : v = 0
          · simp [PRUSS.Inv, hv]
          · simp [PRUSS.Inv, hv, hon1]

theorem restart_keeps_inv (env : Env) (s : PRUSS) (t : Trace) (h : s.Inv) :
    (s.restart env t).2.1.Inv := by
  have hd := shutDown_keeps_inv env s t h
  have hb := bootUp_keeps_inv env (s.shutDown env t).2.1 (s.shutDown env t).2.2 hd
  cases h0 : (s.shutDown env t).1 with
  | throw e => simp only [PRUSS.restart, h0]; exact hd
  | ok v0 =>
    cases h1 : ((s.shutDown env t).2.1.bootUp env (s.shutDown env t).2.2).1 with
    | throw e => simp only [PRUSS.restart, h0, h1]; exact hb
    | ok v1 => simp only [PRUSS.restart, h0, h1]; exact hb

theorem act_keeps_inv (env : Env) (s : PRUSS) (t : Trace) (a : Action) (h : s.Inv) :
    (s.act env t a).1.Inv := by
  cases a with
  | isOn => simpa [PRUSS.act] using h
  | bootUp => exact bootUp_keeps_inv env s t h
  | shutDown => exact shutDown_keeps_inv env s t h
  | restart => exact restart_keeps_inv env s t h
  | pru0 c =>
    intro hoff
    have hs := h hoff
    exact ⟨core_act_keeps_none env s.pru0 t c hs.1, hs.2⟩
  | pru1 c =>
    intro hoff
    have hs := h hoff
    exact ⟨hs.1, core_act_keeps_none env s.pru1 t c hs.2⟩

theorem run_keeps_inv (env : Env) (acts : List Action) :
    ∀ (s : PRUSS) (t : Trace), s.Inv → (PRUSS.run env s t acts).1.Inv := by
  induction acts with
  | nil => intro s t h; simpa [PRUSS.run] using h
  | cons a rest ih =>
    intro s t h
    simp only [PRUSS.run]
    exact ih _ _ (act_keeps_inv env s t a h)

theorem core_new (env : Env) (t : Trace) (n : Int) :
    PRU.new env t n =
      (Ret.ok { number := n, chanPort := if n ≠ 0 then 1 else 0, chanName := "pruss_api_pru",
                sock := Socket.new, state := State.NONE }, t) := by
  simp [PRU.new, PRU.setChannel, PRU.reset, PRU.disable, PRU.enable]

theorem new_establishes_inv (env : Env) (t0 : Trace) (s : PRUSS) (t : Trace)
    (h : PRUSS.new env t0 = (Ret.ok s, t)) : s.Inv := by
  have hb := bootUp_keeps_inv env
    { on_ := false,
      sock := (Socket.sendcmd env (Socket.sendcmd env Socket.new t0 "DISABLE_0").2.1
        (Socket.sendcmd env Socket.new t0 "DISABLE_0").2.2 "DISABLE_1").2.1,
      pru0 := { number := 0, chanPort := 0, chanName := "pruss_api_pru",
                sock := Socket.new, state := State.NONE },
      pru1 := { number := 1, chanPort := 1, chanName := "pruss_api_pru",
                sock := Socket.new, state := State.NONE } }
    (Socket.sendcmd env (Socket.sendcmd env Socket.new t0 "DISABLE_0").2.1
        (Socket.sendcmd env Socket.new t0 "DISABLE_0").2.2 "DISABLE_1").2.2
    (by intro _; exact ⟨rfl, rfl⟩)
  simp only [PRUSS.new, core_new] at h
  simp only [ne_eq, not_true_eq_false, if_false, one_ne_zero, not_false_eq_true, if_true] at h
  revert h
  split
  · intro h; simp at h
  · rename_i v hv
    intro h
    simp only [Prod.mk.injEq, Ret.ok.injEq] at h
    rw [← h.1]
    exact hb

/-- C8: in every state reachable from construction of the controller by any
sequence of public calls (`bootUp`, `shutDown`, `restart`, and on either core
`enable`, `disable`, `reset`, `pause`, `resume`, `load`, `setChannel`, the
message calls and the memory calls), whatever the daemon replies and whether
or not connections succeed, an off subsystem has both cores in NONE. -/
theorem off_implies_cores_absent (env : Env) (t0 : Trace) (s : PRUSS) (t : Trace)
    (acts : List Action) (h : PRUSS.new env t0 = (Ret.ok s, t)) :
    (PRUSS.run env s t acts).1.on_ = false →
      (PRUSS.run env s t acts).1.pru0.state = State.NONE ∧
      (PRUSS.run env s t acts).1.pru1.state = State.NONE :=
  run_keeps_inv env acts s t (new_establishes_inv env t0 s t h)

/-- Witness for C8: construction against the all-zero daemon gives the booted
controller; after a run that enables a core, shuts the subsystem down, then
calls `load` and `pause` on the cores, the subsystem is off and both cores
are in NONE. -/
theorem off_implies_cores_absent_witness :
    PRUSS.new zeroEnv [] = (Ret.ok bootedController, (PRUSS.new zeroEnv []).2) ∧
    (PRUSS.run zeroEnv bootedController (PRUSS.new zeroEnv []).2
      [Action.pru0 CoreAction.enable, Action.shutDown, Action.pru1 (CoreAction.load "fw.out"),
       Action.pru0 CoreAction.pause]).1.on_ = false ∧
    (PRUSS.run zeroEnv bootedController (PRUSS.new zeroEnv []).2
      [Action.pru0 CoreAction.enable, Action.shutDown, Action.pru1 (CoreAction.load "fw.out"),
       Action.pru0 CoreAction.pause]).1.pru0.state = State.NONE ∧
    (PRUSS.run zeroEnv bootedController (PRUSS.new zeroEnv []).2
      [Action.pru0 CoreAction.enable, Action.shutDown, Action.pru1 (CoreAction.load "fw.out"),
       Action.pru0 CoreAction.pause]).1.pru1.state = State.NONE :=
  have h0 : PRUSS.new zeroEnv [] = (Ret.ok bootedController, (PRUSS.new zeroEnv []).2) := by
    decide
  have hoff : (PRUSS.run zeroEnv bootedController (PRUSS.new zeroEnv []).2
      [Action.pru0 CoreAction.enable, Action.shutDown, Action.pru1 (CoreAction.load "fw.out"),
       Action.pru0 CoreAction.pause]).1.on_ = false := by decide
  ⟨h0, hoff,
    off_implies_cores_absent zeroEnv [] bootedController (PRUSS.new zeroEnv []).2
      [Action.pru0 CoreAction.enable, Action.shutDown, Action.pru1 (CoreAction.load "fw.out"),
       Action.pru0 CoreAction.pause] h0 hoff⟩

theorem bootUp_status (env : Env) (s : PRUSS) (t : Trace) (k : Int)
    (hoff : s.on_ = false) (hc : env.connect t = true)
    (hp : stoi (env.reply t "PROBE_RPROC") = Ret.ok k) :
    (s.bootUp env t).1 = Ret.ok k ∧
    commands (s.bootUp env t).2.2 = commands t ++ ["PROBE_RPROC"] ∧
    (k = 0 → (s.bootUp env t).2.1.on_ = true ∧
      (s.bootUp env t).2.1.pru0.state = State.STOPPED ∧
      (s.bootUp env t).2.1.pru1.state = State.STOPPED) ∧
    (k ≠ 0 → (s.bootUp env t).2.1.on_ = false ∧
      (s.bootUp env t).2.1.pru0 = s.pru0 ∧ (s.bootUp env t).2.1.pru1 = s.pru1) := by
  have hr := sendcmd_reply env s.sock t "PROBE_RPROC" hc
  have hk := sendcmd_commands env s.sock t "PROBE_RPROC" hc
  by_cases h0 : k = 0
  · simp [PRUSS.bootUp, hoff, hr, hp, hk, h0]
  · simp [PRUSS.bootUp, hoff, hr, hp, hk, h0]

theorem shutDown_status (env : Env) (s : PRUSS) (t : Trace) (k : Int)
    (hon : s.on_ = true) (h0 : s.pru0.state = State.STOPPED) (h1 : s.pru1.state = State.STOPPED)
    (hc : env.connect t = true)
    (hu : stoi (env.reply t "UNPROBE_RPROC") = Ret.ok k) :
    (s.shutDown env t).1 = Ret.ok k ∧
    commands (s.shutDown env t).2.2 = commands t ++ ["UNPROBE_RPROC"] ∧
    (k = 0 → (s.shutDown env t).2.1.on_ = false ∧
      (s.shutDown env t).2.1.pru0.state = State.NONE ∧
      (s.shutDown env t).2.1.pru1.state = State.NONE) ∧
    (k ≠ 0 → (s.shutDown env t).2.1.on_ = true ∧
      (s.shutDown env t).2.1.pru0 = s.pru0 ∧ (s.shutDown env t).2.1.pru1 = s.pru1) := by
  have hr := sendcmd_reply env s.sock t "UNPROBE_RPROC" hc
  have hk := sendcmd_commands env s.sock t "UNPROBE_RPROC" hc
  have d0 : s.pru0.disable env t = (Ret.ok (-EALREADY), s.pru0, t) := by simp [PRU.disable, h0]
  have d1 : s.pru1.disable env t = (Ret.ok (-EALREADY), s.pru1, t) := by simp [PRU.disable, h1]
  by_cases hz : k = 0
  · simp [PRUSS.shutDown, hon, d0, d1, hr, hu, hk, hz]
  · simp [PRUSS.shutDown, hon, d0, d1, hr, hu, hk, hz]

/-- C9: starting with the subsystem off and a transport that connects: if the
`PROBE_RPROC` reply parses to `k`, `bootUp` returns `k`; for a non-zero `k` the
on flag is not changed; for `k = 0` the subsystem is marked on and both cores
report STOPPED, and if the `UNPROBE_RPROC` reply of the subsequent `shutDown`
parses to `k2`, that call returns `k2`, marks the subsystem off with both cores
in NONE when `k2 = 0`, and does not change the on flag when `k2` is non-zero. -/
theorem boot_shutdown_roundtrip (env : Env) (s : PRUSS) (t : Trace) (k : Int)
    (hoff : s.on_ = false) (hc : ∀ u, env.connect u = true)
    (hp : stoi (env.reply t "PROBE_RPROC") = Ret.ok k) :
    (s.bootUp env t).1 = Ret.ok k ∧
    (k ≠ 0 → (s.bootUp env t).2.1.on_ = s.on_) ∧
    (k = 0 →
      (s.bootUp env t).2.1.on_ = true ∧
      (s.bootUp env t).2.1.pru0.getState = State.STOPPED ∧
      (s.bootUp env t).2.1.pru1.getState = State.STOPPED ∧
      ∀ k2 : Int, stoi (env.reply (s.bootUp env t).2.2 "UNPROBE_RPROC") = Ret.ok k2 →
        ((s.bootUp env t).2.1.shutDown env (s.bootUp env t).2.2).1 = Ret.ok k2 ∧
        (k2 = 0 →
          ((s.bootUp env t).2.1.shutDown env (s.bootUp env t).2.2).2.1.on_ = false ∧
          ((s.bootUp env t).2.1.shutDown env (s.bootUp env t).2.2).2.1.pru0.getState
            = State.NONE ∧
          ((s.bootUp env t).2.1.shutDown env (s.bootUp env t).2.2).2.1.pru1.getState
            = State.NONE) ∧
        (k2 ≠ 0 →
          ((s.bootUp env t).2.1.shutDown env (s.bootUp env t).2.2).2.1.on_
            = (s.bootUp env t).2.1.on_)) := by
  obtain ⟨b1, _, b3, b4⟩ := bootUp_status env s t k hoff (hc t) hp
  refine ⟨b1, ?_, ?_⟩
  · intro hk; rw [(b4 hk).1, hoff]
  · intro hk
    obtain ⟨hon, h0, h1⟩ := b3 hk
    refine ⟨hon, h0, h1, ?_⟩
    intro k2 hu
    obtain ⟨d1, _, d3, d4⟩ := shutDown_status env (s.bootUp env t).2.1 (s.bootUp env t).2.2 k2
      hon h0 h1 (hc _) hu
    refine ⟨d1, d3, ?_⟩
    intro hk2; rw [(d4 hk2).1, hon]

/-- Witness for C9: the off controller against the all-zero daemon boots and
shuts down again; against the daemon answering -5 the boot fails and the
subsystem stays off. -/
theorem boot_shutdown_roundtrip_witness :
    ((offController.bootUp zeroEnv []).1 = Ret.ok 0 ∧
      (offController.bootUp zeroEnv []).2.1.on_ = true ∧
      ((offController.bootUp zeroEnv []).2.1.shutDown zeroEnv
        (offController.bootUp zeroEnv []).2.2).1 = Ret.ok 0 ∧
      ((offController.bootUp zeroEnv []).2.1.shutDown zeroEnv
        (offController.bootUp zeroEnv []).2.2).2.1.on_ = false) ∧
    ((offController.bootUp failEnv []).1 = Ret.ok (-5) ∧
      (offController.bootUp failEnv []).2.1.on_ = false) :=
  have hz := boot_shutdown_roundtrip zeroEnv offController [] 0 rfl (fun _ => rfl) (by decide)
  have hf := boot_shutdown_roundtrip failEnv offController [] (-5) rfl (fun _ => rfl)
    (by decide)
  ⟨⟨hz.1, (hz.2.2 rfl).1, ((hz.2.2 rfl).2.2.2 0 (by decide)).1,
     (((hz.2.2 rfl).2.2.2 0 (by decide)).2.1 rfl).1⟩,
   ⟨hf.1, hf.2.1 (by decide)⟩⟩

/-- C10: when the subsystem is on, `bootUp` returns -EALREADY and leaves the
object and the transport trace exactly as they were (no probe is sent); when
the subsystem is off, `shutDown` returns -EALREADY in the same way; so a
successful `bootUp` followed directly by a second `bootUp` gets -EALREADY the
second time, with nothing sent and nothing changed by the second call. -/
theorem already_done (env : Env) (s : PRUSS) (t : Trace) :
    (s.on_ = true → s.bootUp env t = (Ret.ok (-EALREADY), s, t)) ∧
    (s.on_ = false → s.shutDown env t = (Ret.ok (-EALREADY), s, t)) ∧
    (s.on_ = false → env.connect t = true →
      stoi (env.reply t "PROBE_RPROC") = Ret.ok 0 →
      (s.bootUp env t).1 = Ret.ok 0 ∧
      (s.bootUp env t).2.1.bootUp env (s.bootUp env t).2.2
        = (Ret.ok (-EALREADY), (s.bootUp env t).2.1, (s.bootUp env t).2.2)) := by
  refine ⟨?_, ?_, ?_⟩
  · intro h; simp [PRUSS.bootUp, h]
  · intro h; simp [PRUSS.shutDown, h]
  · intro hoff hc hp
    obtain ⟨b1, _, b3, _⟩ := bootUp_status env s t 0 hoff hc hp
    refine ⟨b1, ?_⟩
    have hon := (b3 rfl).1
    generalize (s.bootUp env t).2.1 = s1 at hon ⊢
    generalize (s.bootUp env t).2.2 = t1
    simp [PRUSS.bootUp, hon]

/-- Witness for C10: the booted controller refuses a second `bootUp`, the off
controller refuses `shutDown`, and booting the off controller twice against
the all-zero daemon sends a single `PROBE_RPROC`. -/
theorem already_done_witness :
    bootedController.bootUp zeroEnv [] = (Ret.ok (-114), bootedController, []) ∧
    offController.shutDown zeroEnv [] = (Ret.ok (-114), offController, []) ∧
    ((offController.bootUp zeroEnv []).2.1.bootUp zeroEnv
      (offController.bootUp zeroEnv []).2.2).1 = Ret.ok (-114) ∧
    commands ((offController.bootUp zeroEnv []).2.1.bootUp zeroEnv
      (offController.bootUp zeroEnv []).2.2).2.2 = ["PROBE_RPROC"] :=
  have h2 := ((already_done zeroEnv offController []).2.2 rfl rfl (by decide)).2
  ⟨(already_done zeroEnv bootedController []).1 rfl,
   (already_done zeroEnv offController []).2.1 rfl,
   by rw [h2]; rfl, by rw [h2]; decide⟩

/-! ## Channel identity and memory access -/

/-- C11: `setChannel(port, name)` with a negative port returns -EINVAL and
leaves the object, and with it both channel fields, as it was; with a port
that is 0 or more it returns 0 and afterwards holds exactly the given port and
name. In both cases nothing is sent to the transport and the lifecycle state
and the socket are unchanged. -/
theorem set_channel_validates (env : Env) (p : PRU) (t : Trace) (port : Int) (name : String) :
    (port < 0 → p.setChannelTo port name = (-EINVAL, p)) ∧
    (0 ≤ port →
      (p.setChannelTo port name).1 = 0 ∧
      (p.setChannelTo port name).2.chanPort = port ∧
      (p.setChannelTo port name).2.chanName = name) ∧
    (p.setChannelTo port name).2.state = p.state ∧
    (p.setChannelTo port name).2.sock = p.sock ∧
    (p.setChannelTo port name).2.number = p.number ∧
    (p.act env t (CoreAction.setChannelTo port name)).2 = t := by
  refine ⟨?_, ?_, ?_, ?_, ?_, ?_⟩
  · intro h; simp [PRU.setChannelTo, h]
  · intro h
    have h2 : ¬ port < 0 := by omega
    simp [PRU.setChannelTo, h2]
  · simp only [PRU.setChannelTo]; split <;> rfl
  · simp only [PRU.setChannelTo]; split <;> rfl
  · simp only [PRU.setChannelTo]; split <;> rfl
  · simp [PRU.act]

/-- Witness for C11: port -1 is refused, port 0 and port 31 are accepted. -/
theorem set_channel_validates_witness :
    (coreIn 1 State.RUNNING).setChannelTo (-1) "rpmsg_pru" = (-22, coreIn 1 State.RUNNING) ∧
    ((coreIn 1 State.RUNNING).setChannelTo 0 "rpmsg_pru").1 = 0 ∧
    ((coreIn 1 State.RUNNING).setChannelTo 0 "rpmsg_pru").2.chanPort = 0 ∧
    ((coreIn 1 State.RUNNING).setChannelTo 31 "rpmsg_pru").2.chanPort = 31 ∧
    ((coreIn 1 State.RUNNING).setChannelTo 31 "rpmsg_pru").2.chanName = "rpmsg_pru" :=
  ⟨(set_channel_validates zeroEnv (coreIn 1 State.RUNNING) [] (-1) "rpmsg_pru").1 (by decide),
   ((set_channel_validates zeroEnv (coreIn 1 State.RUNNING) [] 0 "rpmsg_pru").2.1
      (by decide)).1,
   ((set_channel_validates zeroEnv (coreIn 1 State.RUNNING) [] 0 "rpmsg_pru").2.1
      (by decide)).2.1,
   ((set_channel_validates zeroEnv (coreIn 1 State.RUNNING) [] 31 "rpmsg_pru").2.1
      (by decide)).2.1,
   ((set_channel_validates zeroEnv (coreIn 1 State.RUNNING) [] 31 "rpmsg_pru").2.1
      (by decide)).2.2⟩

theorem mem_command_text :
    "MEMREAD_D" ++ to_string DATA0 ++ " " = "MEMREAD_D0 " ∧
    "MEMREAD_D" ++ to_string DATA1 ++ " " = "MEMREAD_D1 " ∧
    "MEMWRITE_D" ++ to_string DATA0 ++ " " = "MEMWRITE_D0 " ∧
    "MEMWRITE_D" ++ to_string DATA1 ++ " " = "MEMWRITE_D1 " := by
  decide

/-- C12: for a region value other than SHARED (3), DATA0 (0) and DATA1 (1),
`mem_read` and `mem_write` return the decimal text of -EINVAL and leave the
object and the transport trace untouched; for the three recognised regions,
on a transport that connects, exactly one command is sent, `MEMREAD_S off`,
`MEMREAD_D0 off`, `MEMREAD_D1 off`, `MEMWRITE_S off data`, `MEMWRITE_D0 off data`
or `MEMWRITE_D1 off data`, and the reply to it is returned as it was read. -/
theorem memory_regions (env : Env) (p : PRU) (t : Trace) (mem : Int) (offset data : String) :
    (mem ≠ SHARED → mem ≠ DATA0 → mem ≠ DATA1 →
      p.mem_read env t mem offset = (to_string (-EINVAL), p, t) ∧
      p.mem_write env t mem offset data = (to_string (-EINVAL), p, t)) ∧
    (env.connect t = true →
      ((p.mem_read env t SHARED offset).1 = env.reply t ("MEMREAD_S " ++ offset) ∧
        commands (p.mem_read env t SHARED offset).2.2
          = commands t ++ ["MEMREAD_S " ++ offset]) ∧
      ((p.mem_read env t DATA0 offset).1 = env.reply t ("MEMREAD_D0 " ++ offset) ∧
        commands (p.mem_read env t DATA0 offset).2.2
          = commands t ++ ["MEMREAD_D0 " ++ offset]) ∧
      ((p.mem_read env t DATA1 offset).1 = env.reply t ("MEMREAD_D1 " ++ offset) ∧
        commands (p.mem_read env t DATA1 offset).2.2
          = commands t ++ ["MEMREAD_D1 " ++ offset]) ∧
      ((p.mem_write env t SHARED offset data).1
          = env.reply t ("MEMWRITE_S " ++ offset ++ " " ++ data) ∧
        commands (p.mem_write env t SHARED offset data).2.2
          = commands t ++ ["MEMWRITE_S " ++ offset ++ " " ++ data]) ∧
      ((p.mem_write env t DATA0 offset data).1
          = env.reply t ("MEMWRITE_D0 " ++ offset ++ " " ++ data) ∧
        commands (p.mem_write env t DATA0 offset data).2.2
          = commands t ++ ["MEMWRITE_D0 " ++ offset ++ " " ++ data]) ∧
      ((p.mem_write env t DATA1 offset data).1
          = env.reply t ("MEMWRITE_D1 " ++ offset ++ " " ++ data) ∧
        commands (p.mem_write env t DATA1 offset data).2.2
          = commands t ++ ["MEMWRITE_D1 " ++ offset ++ " " ++ data])) := by
  obtain ⟨r0, r1, w0, w1⟩ := mem_command_text
  refine ⟨?_, ?_⟩
  · intro h3 h0 h1
    simp [PRU.mem_read, PRU.mem_write, h3, h0, h1]
  · intro hc
    have hr : ∀ c, (Socket.sendcmd env p.sock t c).1 = env.reply t c :=
      fun c => sendcmd_reply env p.sock t c hc
    have hk : ∀ c, commands (Socket.sendcmd env p.sock t c).2.2 = commands t ++ [c] :=
      fun c => sendcmd_commands env p.sock t c hc
    have h03 : DATA0 ≠ SHARED := by decide
    have h13 : DATA1 ≠ SHARED := by decide
    refine ⟨?_, ?_, ?_, ?_, ?_, ?_⟩
    · simp [PRU.mem_read, hr, hk]
    · simp only [PRU.mem_read, h03, if_false, true_or, if_true, r0, hr, hk, and_self]
    · simp only [PRU.mem_read, h13, if_false, or_true, if_true, r1, hr, hk, and_self]
    · simp [PRU.mem_write, hr, hk]
    · simp only [PRU.mem_write, h03, if_false, true_or, if_true, w0, hr, hk, and_self]
    · simp only [PRU.mem_write, h13, if_false, or_true, if_true, w1, hr, hk, and_self]

/-- Witness for C12: region 2 is refused without a command; a shared read and
a write to data memory 1 send one command each against the all-zero daemon. -/
theorem memory_regions_witness :
    (coreIn 0 State.RUNNING).mem_read zeroEnv [] 2 "16"
      = ("-22", coreIn 0 State.RUNNING, []) ∧
    (coreIn 0 State.RUNNING).mem_write zeroEnv [] 2 "16" "255"
      = ("-22", coreIn 0 State.RUNNING, []) ∧
    commands ((coreIn 0 State.RUNNING).mem_read zeroEnv [] SHARED "16").2.2
      = ["MEMREAD_S 16"] ∧
    commands ((coreIn 0 State.RUNNING).mem_write zeroEnv [] DATA1 "16" "255").2.2
      = ["MEMWRITE_D1 16 255"] ∧
    ((coreIn 0 State.RUNNING).mem_write zeroEnv [] DATA1 "16" "255").1 = "0" :=
  have h := memory_regions zeroEnv (coreIn 0 State.RUNNING) [] 2 "16" "255"
  ⟨(h.1 (by decide) (by decide) (by decide)).1,
   (h.1 (by decide) (by decide) (by decide)).2,
   (h.2 rfl).1.2,
   (h.2 rfl).2.2.2.2.2.2,
   (h.2 rfl).2.2.2.2.2.1.trans (by decide)⟩

/-! ## Transport failures -/

theorem refused_status : stoi (to_string ECONNREFUSED) = Ret.ok 111 := by decide

theorem refused_call (env : Env) (hc : ∀ u, env.connect u = false) (s : Socket) (t : Trace)
    (c : String) :
    (s.sendcmd env t c).1 = to_string ECONNREFUSED ∧
    commands (s.sendcmd env t c).2.2 = commands t := by
  rw [sendcmd_refused env s t c (hc t)]
  simp [commands_append, commands]

theorem refused_disable (env : Env) (hc : ∀ u, env.connect u = false) (p : PRU) (t : Trace) :
    (∃ k : Int, k ≠ 0 ∧ (p.disable env t).1 = Ret.ok k) ∧
    (p.disable env t).2.1.state = p.state ∧
    commands (p.disable env t).2.2 = commands t := by
  have hr := fun c => (refused_call env hc p.sock t c).1
  have hk := fun c => (refused_call env hc p.sock t c).2
  rcases hst : p.state with _ | _ | _ | _
  · exact ⟨⟨-ENODEV, by decide, by simp [PRU.disable, hst]⟩, by simp [PRU.disable, hst],
      by simp [PRU.disable, hst]⟩
  · exact ⟨⟨-EALREADY, by decide, by simp [PRU.disable, hst]⟩, by simp [PRU.disable, hst],
      by simp [PRU.disable, hst]⟩
  · exact ⟨⟨111, by decide, by simp [PRU.disable, hst, hr, refused_status]⟩,
      by simp [PRU.disable, hst, hr, refused_status],
      by simp [PRU.disable, hst, hr, hk, refused_status]⟩
  · exact ⟨⟨111, by decide, by simp [PRU.disable, hst, hr, refused_status]⟩,
      by simp [PRU.disable, hst, hr, refused_status],
      by simp [PRU.disable, hst, hr, hk, refused_status]⟩

/-- C13: when no connection can be established, `sendcmd` returns the decimal
text of ECONNREFUSED and writes no command, and each of `enable`, `disable`,
`pause`, `resume`, `bootUp` and `shutDown` returns a non-zero code, writes no
command and leaves the lifecycle state of every core and the on flag as they
were. -/
theorem connection_refused (env : Env) (hc : ∀ u, env.connect u = false) (t : Trace) :
    (∀ (s : Socket) (c : String),
      (s.sendcmd env t c).1 = to_string ECONNREFUSED ∧
      commands (s.sendcmd env t c).2.2 = commands t) ∧
    (∀ p : PRU,
      ((∃ k : Int, k ≠ 0 ∧ (p.enable env t).1 = Ret.ok k) ∧
        (p.enable env t).2.1.state = p.state ∧ commands (p.enable env t).2.2 = commands t) ∧
      ((∃ k : Int, k ≠ 0 ∧ (p.disable env t).1 = Ret.ok k) ∧
        (p.disable env t).2.1.state = p.state ∧ commands (p.disable env t).2.2 = commands t) ∧
      ((∃ k : Int, k ≠ 0 ∧ (p.pause env t).1 = Ret.ok k) ∧
        (p.pause env t).2.1.state = p.state ∧ commands (p.pause env t).2.2 = commands t) ∧
      ((∃ k : Int, k ≠ 0 ∧ (p.resume env t).1 = Ret.ok k) ∧
        (p.resume env t).2.1.state = p.state ∧ commands (p.resume env t).2.2 = commands t)) ∧
    (∀ s : PRUSS,
      ((∃ k : Int, k ≠ 0 ∧ (s.bootUp env t).1 = Ret.ok k) ∧
        (s.bootUp env t).2.1.on_ = s.on_ ∧
        (s.bootUp env t).2.1.pru0.state = s.pru0.state ∧
        (s.bootUp env t).2.1.pru1.state = s.pru1.state ∧
        commands (s.bootUp env t).2.2 = commands t) ∧
      ((∃ k : Int, k ≠ 0 ∧ (s.shutDown env t).1 = Ret.ok k) ∧
        (s.shutDown env t).2.1.on_ = s.on_ ∧
        (s.shutDown env t).2.1.pru0.state = s.pru0.state ∧
        (s.shutDown env t).2.1.pru1.state = s.pru1.state ∧
        commands (s.shutDown env t).2.2 = commands t)) := by
  refine ⟨fun s c => refused_call env hc s t c, ?_, ?_⟩
  · intro p
    have hr := fun c => (refused_call env hc p.sock t c).1
    have hk := fun c => (refused_call env hc p.sock t c).2
    refine ⟨?_, refused_disable env hc p t, ?_, ?_⟩
    · rcases hst : p.state with _ | _ | _ | _
      · exact ⟨⟨-ENODEV, by decide, by simp [PRU.enable, hst]⟩, by simp [PRU.enable, hst],
          by simp [PRU.enable, hst]⟩
      · exact ⟨⟨111, by decide, by simp [PRU.enable, hst, hr, refused_status]⟩,
          by simp [PRU.enable, hst, hr, refused_status],
          by simp [PRU.enable, hst, hr, hk, refused_status]⟩
      · exact ⟨⟨-EALREADY, by decide, by simp [PRU.enable, hst]⟩, by simp [PRU.enable, hst],
          by simp [PRU.enable, hst]⟩
      · exact ⟨⟨-EALREADY, by decide, by simp [PRU.enable, hst]⟩, by simp [PRU.enable, hst],
          by simp [PRU.enable, hst]⟩
    · rcases hst : p.state with _ | _ | _ | _
      · exact ⟨⟨-ENODEV, by decide, by simp [PRU.pause, hst]⟩, by simp [PRU.pause, hst],
          by simp [PRU.pause, hst]⟩
      · exact ⟨⟨111, by decide, by simp [PRU.pause, hst, hr, refused_status]⟩,
          by simp [PRU.pause, hst, hr, refused_status],
          by simp [PRU.pause, hst, hr, hk, refused_status]⟩
      · exact ⟨⟨111, by decide, by simp [PRU.pause, hst, hr, refused_status]⟩,
          by simp [PRU.pause, hst, hr, refused_status],
          by simp [PRU.pause, hst, hr, hk, refused_status]⟩
      · exact ⟨⟨-EALREADY, by decide, by simp [PRU.pause, hst]⟩, by simp [PRU.pause, hst],
          by simp [PRU.pause, hst]⟩
    · rcases hst : p.state with _ | _ | _ | _
      · exact ⟨⟨-ENODEV, by decide, by simp [PRU.resume, hst]⟩, by simp [PRU.resume, hst],
          by simp [PRU.resume, hst]⟩
      · exact ⟨⟨-ENODEV, by decide, by simp [PRU.resume, hst]⟩, by simp [PRU.resume, hst],
          by simp [PRU.resume, hst]⟩
      · exact ⟨⟨-EALREADY, by decide, by simp [PRU.resume, hst]⟩, by simp [PRU.resume, hst],
          by simp [PRU.resume, hst]⟩
      · exact ⟨⟨111, by decide, by simp [PRU.resume, hst, hr, refused_status]⟩,
          by simp [PRU.resume, hst, hr, refused_status],
          by simp [PRU.resume, hst, hr, hk, refused_status]⟩
  · intro s
    refine ⟨?_, ?_⟩
    · have hr := (refused_call env hc s.sock t "PROBE_RPROC").1
      have hk := (refused_call env hc s.sock t "PROBE_RPROC").2
      by_cases hon : s.on_ = true
      · exact ⟨⟨-EALREADY, by decide, by simp [PRUSS.bootUp, hon]⟩,
          by simp [PRUSS.bootUp, hon], by simp [PRUSS.bootUp, hon],
          by simp [PRUSS.bootUp, hon], by simp [PRUSS.bootUp, hon]⟩
      · have hoff : s.on_ = false := by simpa using hon
        exact ⟨⟨111, by decide, by simp [PRUSS.bootUp, hoff, hr, refused_status]⟩,
          by simp [PRUSS.bootUp, hoff, hr, refused_status],
          by simp [PRUSS.bootUp, hoff, hr, refused_status],
          by simp [PRUSS.bootUp, hoff, hr, refused_status],
          by simp [PRUSS.bootUp, hoff, hr, hk, refused_status]⟩
    · by_cases hon : s.on_ = true
      · obtain ⟨⟨k0, _, e0⟩, s0, c0⟩ := refused_disable env hc s.pru0 t
        obtain ⟨⟨k1, _, e1⟩, s1, c1⟩ :=
          refused_disable env hc s.pru1 (s.pru0.disable env t).2.2
        have hr := (refused_call env hc s.sock
          (s.pru1.disable env (s.pru0.disable env t).2.2).2.2 "UNPROBE_RPROC").1
        have hk := (refused_call env hc s.sock
          (s.pru1.disable env (s.pru0.disable env t).2.2).2.2 "UNPROBE_RPROC").2
        exact ⟨⟨111, by decide, by simp [PRUSS.shutDown, hon, e0, e1, hr, refused_status]⟩,
          by simp [PRUSS.shutDown, hon, e0, e1, hr, refused_status],
          by simp [PRUSS.shutDown, hon, e0, e1, hr, refused_status, s0],
          by simp [PRUSS.shutDown, hon, e0, e1, hr, refused_status, s1],
          by simp [PRUSS.shutDown, hon, e0, e1, hr, hk, refused_status, c0, c1]⟩
      · have hoff : s.on_ = false := by simpa using hon
        exact ⟨⟨-EALREADY, by decide, by simp [PRUSS.shutDown, hoff]⟩,
          by simp [PRUSS.shutDown, hoff], by simp [PRUSS.shutDown, hoff],
          by simp [PRUSS.shutDown, hoff], by simp [PRUSS.shutDown, hoff]⟩

/-- Witness for C13: with the daemon not listening, `sendcmd` yields `111`,
`enable` on a STOPPED core and `shutDown` on a busy controller return 111 and
change neither the lifecycle states nor the on flag, and no command is
written. -/
theorem connection_refused_witness :
    ((Socket.new).sendcmd refusedEnv [] "ENABLE_0").1 = "111" ∧
    commands ((Socket.new).sendcmd refusedEnv [] "ENABLE_0").2.2 = [] ∧
    ((coreIn 0 State.STOPPED).enable refusedEnv []).1 = Ret.ok 111 ∧
    ((coreIn 0 State.STOPPED).enable refusedEnv []).2.1.state = State.STOPPED ∧
    (busyController.shutDown refusedEnv []).1 = Ret.ok 111 ∧
    (busyController.shutDown refusedEnv []).2.1.on_ = true ∧
    (busyController.shutDown refusedEnv []).2.1.pru0.state = State.RUNNING ∧
    (busyController.shutDown refusedEnv []).2.1.pru1.state = State.HALTED ∧
    commands (busyController.shutDown refusedEnv []).2.2 = [] :=
  have h := connection_refused refusedEnv (fun _ => rfl) []
  ⟨(h.1 Socket.new "ENABLE_0").1.trans (by decide),
   (h.1 Socket.new "ENABLE_0").2,
   by decide,
   (h.2.1 (coreIn 0 State.STOPPED)).1.2.1,
   by decide,
   (h.2.2 busyController).2.2.1,
   (h.2.2 busyController).2.2.2.1,
   (h.2.2 busyController).2.2.2.2.1,
   (h.2.2 busyController).2.2.2.2.2⟩

/-! ## Replies that are not a decimal integer -/

theorem digitsValue_stop (n : Nat) (R : List Char)
    (h : ∀ c, R.head? = some c → isdigit c = false) : digitsValue n R = n := by
  cases R with
  | nil => rfl
  | cons c r => simp [digitsValue, h c rfl]

theorem head_takeWhile (p : Char → Bool) (R : List Char) (c : Char)
    (h : (R.takeWhile p).head? = some c) : R.head? = some c := by
  cases R with
  | nil => simp at h
  | cons a r =>
    by_cases ha : p a = true
    · simpa [List.takeWhile_cons_of_pos ha] using h
    · simp [List.takeWhile_cons_of_neg ha] at h

theorem stoi_digits_then (D R : List Char) (n : Nat) (hne : D ≠ [])
    (hdig : ∀ c ∈ D, isdigit c = true)
    (hval : ∀ (acc : Nat) (rest : List Char),
      digitsValue acc (D ++ rest) = digitsValue (acc * 10 ^ D.length + n) rest)
    (hR : ∀ c, R.head? = some c → isdigit c = false) :
    (stoi (String.mk (D ++ R)) =
      if INT_MIN ≤ (n : Int) ∧ (n : Int) ≤ INT_MAX then Ret.ok (n : Int)
      else Ret.throw Exn.out_of_range) ∧
    (stoi (String.mk ('-' :: (D ++ R))) =
      if INT_MIN ≤ -(n : Int) ∧ -(n : Int) ≤ INT_MAX then Ret.ok (-(n : Int))
      else Ret.throw Exn.out_of_range) := by
  have hnul : ∀ a ∈ D, (fun c => c != NUL) a = true :=
    fun a ha => (isdigit_facts a (hdig a ha)).1
  have hc : c_str (String.mk (D ++ R)) = D ++ R.takeWhile (fun c => c != NUL) := by
    simp only [c_str]
    exact List.takeWhile_append_of_pos hnul
  have hc2 : c_str (String.mk ('-' :: (D ++ R)))
      = '-' :: (D ++ R.takeWhile (fun c => c != NUL)) := by
    simp only [c_str]
    rw [List.takeWhile_cons_of_pos (by decide), List.takeWhile_append_of_pos hnul]
  have hR2 : ∀ c, (R.takeWhile (fun c => c != NUL)).head? = some c → isdigit c = false :=
    fun c h => hR c (head_takeWhile _ R c h)
  have hv : digitsValue 0 (D ++ R.takeWhile (fun c => c != NUL)) = n := by
    rw [hval, digitsValue_stop _ _ hR2]
    simp
  obtain ⟨d, r, hDc⟩ : ∃ d r, D = d :: r := by
    cases D with
    | nil => exact absurd rfl hne
    | cons d r => exact ⟨d, r, rfl⟩
  · have hdd : isdigit d = true := hdig d (by simp [hDc])
    have hd := isdigit_facts d hdd
    have hsp : isspace '-' = false := by decide
    have hL : D ++ R.takeWhile (fun c => c != NUL)
        = d :: (r ++ R.takeWhile (fun c => c != NUL)) := by rw [hDc]; rfl
    rw [hL] at hc hc2 hv
    generalize r ++ R.takeWhile (fun c => c != NUL) = l at hc hc2 hv
    refine ⟨?_, ?_⟩
    · simp only [stoi]
      rw [hc]
      simp only [List.dropWhile, hd.2.1, hd.2.2.1, hd.2.2.2, if_false, hdd, if_true, hv]
      simp
    · simp only [stoi]
      rw [hc2]
      simp only [List.dropWhile, hsp, if_true, hdd, hv]

/-- The decimal text of an `int` followed by text that does not start with a
digit parses to that `int`. -/
theorem stoi_to_string_append (k : Int) (hlo : INT_MIN ≤ k) (hhi : k ≤ INT_MAX)
    (rest : String) (hrest : ∀ c, rest.data.head? = some c → isdigit c = false) :
    stoi (to_string k ++ rest) = Ret.ok k := by
  cases k with
  | ofNat n =>
    obtain ⟨D, hD, hne, hdig, hval⟩ := toDigitsCore_spec (n + 1) n [] (by omega)
    have hs : to_string (Int.ofNat n) ++ rest = String.mk (D ++ rest.data) := by
      show String.mk (Nat.toDigitsCore 10 (n + 1) n [] ++ rest.data) = _
      rw [hD, List.append_nil]
    rw [hs, (stoi_digits_then D rest.data n hne hdig hval hrest).1]
    simp only [Int.ofNat_eq_coe] at hlo hhi ⊢
    rw [if_pos ⟨hlo, hhi⟩]
  | negSucc m =>
    obtain ⟨D, hD, hne, hdig, hval⟩ := toDigitsCore_spec (m + 1 + 1) (m + 1) [] (by omega)
    have hs : to_string (Int.negSucc m) ++ rest = String.mk ('-' :: (D ++ rest.data)) := by
      show String.mk ((("-" : String).data ++ Nat.toDigitsCore 10 (m + 1 + 1) (m + 1) [])
        ++ rest.data) = _
      rw [hD, List.append_nil]
      rfl
    have hk : (Int.negSucc m) = -((m + 1 : Nat) : Int) := rfl
    rw [hs, (stoi_digits_then D rest.data (m + 1) hne hdig hval hrest).2]
    rw [hk] at hlo hhi ⊢
    rw [if_pos ⟨hlo, hhi⟩]

theorem stoi_no_digit (s : String) (h : ∀ c ∈ s.data, isdigit c = false) :
    stoi s = Ret.throw Exn.invalid_argument := by
  simp only [stoi]
  have hall : ∀ c ∈ (c_str s).dropWhile isspace, isdigit c = false := by
    intro c hc
    apply h
    have h1 := (List.dropWhile_sublist isspace).subset hc
    exact (List.takeWhile_sublist _).subset h1
  generalize (c_str s).dropWhile isspace = cs at hall
  cases cs with
  | nil => rfl
  | cons c r =>
    have hr : ∀ x ∈ r, isdigit x = false := fun x hx => hall x (List.mem_cons_of_mem _ hx)
    by_cases hm : c = '-'
    · cases r with
      | nil => simp [hm]
      | cons d r2 => simp [hm, hr d (by simp)]
    · by_cases hp : c = '+'
      · cases r with
        | nil => simp [hp]
        | cons d r2 => simp [hp, hr d (by simp)]
      · simp [hm, hp, hall c (by simp)]

theorem to_string_ne_0abc (k : Int) : to_string k ≠ "0abc" := by
  intro hk
  cases k with
  | ofNat n =>
    obtain ⟨D, hD, _, hdig, _⟩ := toDigitsCore_spec (n + 1) n [] (by omega)
    have hs : to_string (Int.ofNat n) = String.mk D := by
      show String.mk (Nat.toDigitsCore 10 (n + 1) n []) = String.mk D
      rw [hD, List.append_nil]
    rw [hs] at hk
    have hD2 : D = ['0', 'a', 'b', 'c'] := congrArg String.data hk
    have := hdig 'a' (by simp [hD2])
    exact absurd this (by decide)
  | negSucc m =>
    have hs : (to_string (Int.negSucc m)).data
        = '-' :: Nat.toDigitsCore 10 (m + 1 + 1) (m + 1) [] := rfl
    rw [hk] at hs
    have := (List.cons.inj hs).1
    exact absurd this (by decide)

/-- C14 as stated fails: the reply `0abc` is the decimal text of no integer,
yet `stoi` reads it as 0; `enable` on a STOPPED core then returns 0 and moves
the core to RUNNING, and `bootUp` on an off controller returns 0 and marks the
subsystem on. -/
theorem garbled_reply_counterexample :
    (∀ k : Int, to_string k ≠ "0abc") ∧
    (∀ t c, garbledEnv.connect t = true ∧ garbledEnv.reply t c = "0abc") ∧
    stoi "0abc" = Ret.ok 0 ∧
    ((coreIn 0 State.STOPPED).enable garbledEnv []).1 = Ret.ok 0 ∧
    ((coreIn 0 State.STOPPED).enable garbledEnv []).2.1.state = State.RUNNING ∧
    (offController.bootUp garbledEnv []).1 = Ret.ok 0 ∧
    (offController.bootUp garbledEnv []).2.1.on_ = true := by
  refine ⟨to_string_ne_0abc, fun t c => ⟨rfl, rfl⟩, by decide, by decide, by decide,
    by decide, by decide⟩

/-- C14 (amended): on a transport that connects, when `stoi` throws `e` on the
reply (it throws `invalid_argument` on every reply without a decimal digit), a
call that reaches the daemon never reports success: `enable` from STOPPED,
`disable` from RUNNING or HALTED, `pause` from STOPPED or RUNNING, `resume`
from HALTED and `bootUp` from off leave by the exception `e` with the
lifecycle states and the on flag unchanged. `shutDown` from on, with such a
reply to `UNPROBE_RPROC`, leaves by an exception with the on flag unchanged;
it leaves by `e` with both lifecycle states unchanged when neither core is
RUNNING or HALTED, and also when the replies to all commands are such; when
its `DISABLE_n` commands are answered 0 it leaves by `e` after those steps
have put every core that was not in NONE into STOPPED. The decimal text of an
`int` `k` followed by text that does not begin with a digit is not such a
reply: `stoi` reads `k` from it, and `enable` from STOPPED then returns `k`
and ends RUNNING when `k = 0`, STOPPED otherwise. -/
theorem unreadable_reply_throws (env : Env) (hc : ∀ u, env.connect u = true) (t : Trace)
    (e : Exn) :
    (∀ r : String, (∀ c ∈ r.data, isdigit c = false) →
      stoi r = Ret.throw Exn.invalid_argument) ∧
    (∀ p : PRU, p.state = State.STOPPED →
      stoi (env.reply t ("ENABLE_" ++ to_string p.number)) = Ret.throw e →
      (p.enable env t).1 = Ret.throw e ∧ (p.enable env t).2.1.state = p.state) ∧
    (∀ p : PRU, p.state = State.RUNNING ∨ p.state = State.HALTED →
      stoi (env.reply t ("DISABLE_" ++ to_string p.number)) = Ret.throw e →
      (p.disable env t).1 = Ret.throw e ∧ (p.disable env t).2.1.state = p.state) ∧
    (∀ p : PRU, p.state = State.STOPPED ∨ p.state = State.RUNNING →
      stoi (env.reply t ("PAUSE_" ++ to_string p.number)) = Ret.throw e →
      (p.pause env t).1 = Ret.throw e ∧ (p.pause env t).2.1.state = p.state) ∧
    (∀ p : PRU, p.state = State.HALTED →
      stoi (env.reply t ("RESUME_" ++ to_string p.number)) = Ret.throw e →
      (p.resume env t).1 = Ret.throw e ∧ (p.resume env t).2.1.state = p.state) ∧
    (∀ s : PRUSS, s.on_ = false →
      stoi (env.reply t "PROBE_RPROC") = Ret.throw e →
      (s.bootUp env t).1 = Ret.throw e ∧ (s.bootUp env t).2.1.on_ = false ∧
      (s.bootUp env t).2.1.pru0.state = s.pru0.state ∧
      (s.bootUp env t).2.1.pru1.state = s.pru1.state) ∧
    (∀ s : PRUSS, s.on_ = true →
      (∀ u, stoi (env.reply u "UNPROBE_RPROC") = Ret.throw e) →
      (∃ x, (s.shutDown env t).1 = Ret.throw x) ∧ (s.shutDown env t).2.1.on_ = true ∧
      (s.pru0.state = State.NONE ∨ s.pru0.state = State.STOPPED →
        s.pru1.state = State.NONE ∨ s.pru1.state = State.STOPPED →
        (s.shutDown env t).1 = Ret.throw e ∧
        (s.shutDown env t).2.1.pru0.state = s.pru0.state ∧
        (s.shutDown env t).2.1.pru1.state = s.pru1.state) ∧
      ((∀ u c, stoi (env.reply u c) = Ret.throw e) →
        (s.shutDown env t).1 = Ret.throw e ∧
        (s.shutDown env t).2.1.pru0.state = s.pru0.state ∧
        (s.shutDown env t).2.1.pru1.state = s.pru1.state) ∧
      ((∀ u, stoi (env.reply u ("DISABLE_" ++ to_string s.pru0.number)) = Ret.ok 0) →
        (∀ u, stoi (env.reply u ("DISABLE_" ++ to_string s.pru1.number)) = Ret.ok 0) →
        (s.shutDown env t).1 = Ret.throw e ∧
        (s.shutDown env t).2.1.pru0.state
          = (if s.pru0.state = State.NONE then State.NONE else State.STOPPED) ∧
        (s.shutDown env t).2.1.pru1.state
          = (if s.pru1.state = State.NONE then State.NONE else State.STOPPED))) ∧
    (∀ (k : Int) (rest : String), INT_MIN ≤ k → k ≤ INT_MAX →
      (∀ c, rest.data.head? = some c → isdigit c = false) →
      stoi (to_string k ++ rest) = Ret.ok k ∧
      ∀ p : PRU, p.state = State.STOPPED →
        env.reply t ("ENABLE_" ++ to_string p.number) = to_string k ++ rest →
        (p.enable env t).1 = Ret.ok k ∧
        (p.enable env t).2.1.state = (if k = 0 then State.RUNNING else State.STOPPED)) := by
  have hr : ∀ s u c, (Socket.sendcmd env s u c).1 = env.reply u c :=
    fun s u c => sendcmd_reply env s u c (hc u)
  refine ⟨stoi_no_digit, ?_, ?_, ?_, ?_, ?_, ?_, ?_⟩
  · intro p hs h; simp [PRU.enable, hs, hr, h]
  · intro p hs h; rcases hs with hs | hs <;> simp [PRU.disable, hs, hr, h]
  · intro p hs h; rcases hs with hs | hs <;> simp [PRU.pause, hs, hr, h]
  · intro p hs h; simp [PRU.resume, hs, hr, h]
  · intro s hoff h; simp [PRUSS.bootUp, hoff, hr, h]
  · intro s hon hu
    refine ⟨?_, ?_, ?_, ?_, ?_⟩
    · cases h0 : (s.pru0.disable env t).1 with
      | throw x => exact ⟨x, by simp [PRUSS.shutDown, hon, h0]⟩
      | ok v0 =>
        cases h1 : (s.pru1.disable env (s.pru0.disable env t).2.2).1 with
        | throw x => exact ⟨x, by simp [PRUSS.shutDown, hon, h0, h1]⟩
        | ok v1 => exact ⟨e, by simp [PRUSS.shutDown, hon, h0, h1, hr, hu]⟩
    · cases h0 : (s.pru0.disable env t).1 with
      | throw x => simp [PRUSS.shutDown, hon, h0]
      | ok v0 =>
        cases h1 : (s.pru1.disable env (s.pru0.disable env t).2.2).1 with
        | throw x => simp [PRUSS.shutDown, hon, h0, h1]
        | ok v1 => simp [PRUSS.shutDown, hon, h0, h1, hr, hu]
    · intro s0 s1
      rcases s0 with s0 | s0 <;> rcases s1 with s1 | s1 <;>
        simp [PRUSS.shutDown, PRU.disable, hon, hr, hu, s0, s1]
    · intro hall
      rcases s0 : s.pru0.state with _ | _ | _ | _ <;>
        rcases s1 : s.pru1.state with _ | _ | _ | _ <;>
        simp [PRUSS.shutDown, PRU.disable, hon, hr, hall, s0, s1]
    · intro hd0 hd1
      rcases s0 : s.pru0.state with _ | _ | _ | _ <;>
        rcases s1 : s.pru1.state with _ | _ | _ | _ <;>
        simp [PRUSS.shutDown, PRU.disable, hon, hr, hu, hd0, hd1, s0, s1]
  · intro k rest hlo hhi hrest
    have hst := stoi_to_string_append k hlo hhi rest hrest
    refine ⟨hst, ?_⟩
    intro p hs hrep
    have he := enable_status env p t k hs (hc t) (by rw [hrep]; exact hst)
    rw [he]
    exact ⟨rfl, rfl⟩

/-- Witness for C14 (amended): against a daemon answering `OK`, `enable` on a
STOPPED core, `bootUp` on the off controller and `shutDown` on the booted and
on the busy controller leave by `invalid_argument` without a state change;
with only `UNPROBE_RPROC` answered `OK`, `shutDown` on the busy controller
throws after both cores were stopped; against the daemon answering `0abc`,
`enable` on a STOPPED core returns 0 and ends RUNNING. -/
theorem unreadable_reply_throws_witness :
    stoi "OK" = Ret.throw Exn.invalid_argument ∧
    (((coreIn 0 State.STOPPED).enable textEnv []).1 = Ret.throw Exn.invalid_argument ∧
      ((coreIn 0 State.STOPPED).enable textEnv []).2.1.state = State.STOPPED) ∧
    ((offController.bootUp textEnv []).1 = Ret.throw Exn.invalid_argument ∧
      (offController.bootUp textEnv []).2.1.on_ = false) ∧
    ((bootedController.shutDown textEnv []).1 = Ret.throw Exn.invalid_argument ∧
      (bootedController.shutDown textEnv []).2.1.on_ = true ∧
      (bootedController.shutDown textEnv []).2.1.pru0.state = State.STOPPED) ∧
    ((busyController.shutDown textEnv []).1 = Ret.throw Exn.invalid_argument ∧
      (busyController.shutDown textEnv []).2.1.pru0.state = State.RUNNING ∧
      (busyController.shutDown textEnv []).2.1.pru1.state = State.HALTED) ∧
    ((busyController.shutDown unprobeTextEnv []).1 = Ret.throw Exn.invalid_argument ∧
      (busyController.shutDown unprobeTextEnv []).2.1.on_ = true ∧
      (busyController.shutDown unprobeTextEnv []).2.1.pru0.state = State.STOPPED ∧
      (busyController.shutDown unprobeTextEnv []).2.1.pru1.state = State.STOPPED) ∧
    (stoi (to_string 0 ++ "abc") = Ret.ok 0 ∧
      ((coreIn 0 State.STOPPED).enable garbledEnv []).1 = Ret.ok 0 ∧
      ((coreIn 0 State.STOPPED).enable garbledEnv []).2.1.state = State.RUNNING) :=
  have h := unreadable_reply_throws textEnv (fun _ => rfl) [] Exn.invalid_argument
  have hu := unreadable_reply_throws unprobeTextEnv (fun _ => rfl) [] Exn.invalid_argument
  have hg :=
    (unreadable_reply_throws garbledEnv (fun _ => rfl) [] Exn.invalid_argument).2.2.2.2.2.2.2
      0 "abc" (by decide) (by decide) (by decide)
  have hb := h.2.2.2.2.2.2.1 bootedController rfl (fun _ => rfl)
  have hy := h.2.2.2.2.2.2.1 busyController rfl (fun _ => rfl)
  have hz := hu.2.2.2.2.2.2.1 busyController rfl (fun _ => rfl)
  ⟨h.1 "OK" (by decide),
   h.2.1 (coreIn 0 State.STOPPED) rfl (by decide),
   ⟨(h.2.2.2.2.2.1 offController rfl (by decide)).1,
    (h.2.2.2.2.2.1 offController rfl (by decide)).2.1⟩,
   ⟨(hb.2.2.1 (Or.inr rfl) (Or.inr rfl)).1, hb.2.1, (hb.2.2.1 (Or.inr rfl) (Or.inr rfl)).2.1⟩,
   hy.2.2.2.1 (fun _ _ => rfl),
   ⟨(hz.2.2.2.2 (fun _ => rfl) (fun _ => rfl)).1, hz.2.1,
    (hz.2.2.2.2 (fun _ => rfl) (fun _ => rfl)).2.1,
    (hz.2.2.2.2 (fun _ => rfl) (fun _ => rfl)).2.2⟩,
   ⟨hg.1, (hg.2 (coreIn 0 State.STOPPED) rfl rfl).1, (hg.2 (coreIn 0 State.STOPPED) rfl rfl).2⟩⟩

/-! ## Message operations -/

/-- C15: on a transport that connects, the message calls of a core whose
channel name is `c` and channel port is `p` send exactly one command each:
`SENDMSG s c p text`, `SENDMSG r c p value`, `GETMSG c p`, `EVENTWAIT c p` and
`EVENTWAIT c p timeout`, with `p` and `timeout` in decimal, and none of them
changes the lifecycle state. After construction of core 0 or core 1 the name
is `pruss_api_pru` and the port is the core index; after an accepted
`setChannel(port, name)` they are the values given, and after a refused one
they are what they were. -/
theorem message_commands (env : Env) (p : PRU) (t : Trace) (hc : env.connect t = true)
    (text value : String) (timeout : Int) :
    (commands (p.sendMsg_string env t text).2.2 = commands t ++
        ["SENDMSG s " ++ p.chanName ++ " " ++ to_string p.chanPort ++ " " ++ text] ∧
      (p.sendMsg_string env t text).2.1.state = p.state) ∧
    (commands (p.sendMsg_raw env t value).2 = commands t ++
        ["SENDMSG r " ++ p.chanName ++ " " ++ to_string p.chanPort ++ " " ++ value] ∧
      (p.sendMsg_raw env t value).1.state = p.state) ∧
    (commands (p.getMsg env t).2.2 = commands t ++
        ["GETMSG " ++ p.chanName ++ " " ++ to_string p.chanPort] ∧
      (p.getMsg env t).2.1.state = p.state) ∧
    (commands (p.waitForEvent env t).2.2 = commands t ++
        ["EVENTWAIT " ++ p.chanName ++ " " ++ to_string p.chanPort] ∧
      (p.waitForEvent env t).2.1.state = p.state) ∧
    (commands (p.waitForEventFor env t timeout).2.2 = commands t ++
        ["EVENTWAIT " ++ p.chanName ++ " " ++ to_string p.chanPort ++ " "
          ++ to_string timeout] ∧
      (p.waitForEventFor env t timeout).2.1.state = p.state) ∧
    (∀ n : Int, n = 0 ∨ n = 1 →
      ∃ q : PRU, PRU.new env t n = (Ret.ok q, t) ∧
        q.chanName = "pruss_api_pru" ∧ q.chanPort = n) ∧
    (∀ (port : Int) (name : String), 0 ≤ port →
      (p.setChannelTo port name).2.chanName = name ∧
      (p.setChannelTo port name).2.chanPort = port) ∧
    (∀ (port : Int) (name : String), port < 0 →
      (p.setChannelTo port name).2.chanName = p.chanName ∧
      (p.setChannelTo port name).2.chanPort = p.chanPort) := by
  have hk : ∀ c, commands (Socket.sendcmd env p.sock t c).2.2 = commands t ++ [c] :=
    fun c => sendcmd_commands env p.sock t c hc
  refine ⟨?_, ?_, ?_, ?_, ?_, ?_, ?_, ?_⟩
  · simp [PRU.sendMsg_string, hk]
  · simp [PRU.sendMsg_raw, hk]
  · simp [PRU.getMsg, hk]
  · simp [PRU.waitForEvent, hk]
  · simp [PRU.waitForEventFor, hk]
  · intro n hn
    refine ⟨_, core_new env t n, rfl, ?_⟩
    rcases hn with hn | hn <;> simp [hn]
  · intro port name h
    have h2 : ¬ port < 0 := by omega
    simp [PRU.setChannelTo, h2]
  · intro port name h
    simp [PRU.setChannelTo, h]

/-- Witness for C15: core 1 on its default channel, and the same core after
`setChannel(31, "rpmsg_pru")`, against the all-zero daemon. -/
theorem message_commands_witness :
    commands ((coreIn 1 State.RUNNING).sendMsg_string zeroEnv [] "hi!").2.2
      = ["SENDMSG s pruss_api_pru 1 hi!"] ∧
    commands ((coreIn 1 State.RUNNING).getMsg zeroEnv []).2.2 = ["GETMSG pruss_api_pru 1"] ∧
    commands (((coreIn 1 State.RUNNING).setChannelTo 31 "rpmsg_pru").2.sendMsg_raw
      zeroEnv [] "1281").2 = ["SENDMSG r rpmsg_pru 31 1281"] ∧
    commands (((coreIn 1 State.RUNNING).setChannelTo 31 "rpmsg_pru").2.waitForEventFor
      zeroEnv [] 5).2.2 = ["EVENTWAIT rpmsg_pru 31 5"] ∧
    commands (((coreIn 1 State.RUNNING).setChannelTo 31 "rpmsg_pru").2.waitForEvent
      zeroEnv []).2.2 = ["EVENTWAIT rpmsg_pru 31"] :=
  ⟨(message_commands zeroEnv (coreIn 1 State.RUNNING) [] rfl "hi!" "" 0).1.1,
   (message_commands zeroEnv (coreIn 1 State.RUNNING) [] rfl "hi!" "" 0).2.2.1.1,
   (message_commands zeroEnv ((coreIn 1 State.RUNNING).setChannelTo 31 "rpmsg_pru").2 []
      rfl "" "1281" 5).2.1.1,
   (message_commands zeroEnv ((coreIn 1 State.RUNNING).setChannelTo 31 "rpmsg_pru").2 []
      rfl "" "1281" 5).2.2.2.2.1.1,
   (message_commands zeroEnv ((coreIn 1 State.RUNNING).setChannelTo 31 "rpmsg_pru").2 []
      rfl "" "1281" 5).2.2.2.1.1⟩

/-! ## The descriptor of the channel -/

theorem sendcmd_closes (env : Env) (s : Socket) (t : Trace) (c : String)
    (h : env.connect t = true) : (s.sendcmd env t c).2.1.fd = -1 := by
  simp only [Socket.sendcmd, Socket.conn, Socket.disconn, h]
  by_cases hfd : env.socket t = -1 <;> simp [hfd]

/-- C16 (the code departs from the claim): the descriptor is -1 at
construction, and after a `sendcmd` whose connection was established it is -1
again, with one connect and one close in the trace. When `connect` fails,
`conn` has already stored the descriptor that `socket()` returned and
`sendcmd` returns before `disconn`: with `socket()` giving 3, the descriptor
is 3 after the call and the trace holds the failed connect and no close. -/
theorem descriptor_left_open :
    (Socket.new).fd = -1 ∧
    ((Socket.new).sendcmd zeroEnv [] "ENABLE_0").2.1.fd = -1 ∧
    ((Socket.new).sendcmd zeroEnv [] "ENABLE_0").2.2
      = [Event.connect true,
         Event.write "ENABLE_0" (some ['E', 'N', 'A', 'B', 'L', 'E', '_', '0', NL]),
         Event.read "0", Event.close] ∧
    (Socket.new).sendcmd refusedEnv [] "ENABLE_0"
      = ("111", { fd := 3 }, [Event.connect false]) ∧
    ((Socket.new).sendcmd refusedEnv [] "ENABLE_0").2.1.fd ≠ -1 ∧
    Event.close ∉ ((Socket.new).sendcmd refusedEnv [] "ENABLE_0").2.2 := by
  decide

/-! ## Construction of the controller -/

theorem new_unfolds (env : Env) (t0 : Trace) :
    PRUSS.new env t0 =
      (match (PRUSS.bootUp env
          (PRUSS.mk false
            (Socket.sendcmd env (Socket.sendcmd env Socket.new t0 "DISABLE_0").2.1
              (Socket.sendcmd env Socket.new t0 "DISABLE_0").2.2 "DISABLE_1").2.1
            (PRU.mk 0 0 "pruss_api_pru" Socket.new State.NONE)
            (PRU.mk 1 1 "pruss_api_pru" Socket.new State.NONE))
          (Socket.sendcmd env (Socket.sendcmd env Socket.new t0 "DISABLE_0").2.1
            (Socket.sendcmd env Socket.new t0 "DISABLE_0").2.2 "DISABLE_1").2.2) with
      | (Ret.throw e, _, t) => (Ret.throw e, t)
      | (Ret.ok _, s, t) => (Ret.ok s, t)) := by
  simp only [PRUSS.new, core_new]
  simp only [ne_eq, not_true_eq_false, if_false, one_ne_zero, not_false_eq_true, if_true]
  generalize PRUSS.bootUp env _ _ = r
  obtain ⟨r1, s, t⟩ := r
  cases r1 <;> rfl

theorem bootUp_keeps_identity (env : Env) (s : PRUSS) (t : Trace) :
    (s.bootUp env t).2.1.pru0.number = s.pru0.number ∧
    (s.bootUp env t).2.1.pru1.number = s.pru1.number ∧
    (s.bootUp env t).2.1.pru0.chanPort = s.pru0.chanPort ∧
    (s.bootUp env t).2.1.pru1.chanPort = s.pru1.chanPort ∧
    (s.bootUp env t).2.1.pru0.chanName = s.pru0.chanName ∧
    (s.bootUp env t).2.1.pru1.chanName = s.pru1.chanName := by
  unfold PRUSS.bootUp
  by_cases hon : s.on_ = true
  · simp [hon]
  · simp only [hon]
    cases hst : stoi (Socket.sendcmd env s.sock t "PROBE_RPROC").1 with
    | throw e => simp
    | ok v => by_cases hv : v = 0 <;> simp [hv]

/-- C17: both cores are constructed in NONE with the channel port equal to
their index and without touching the transport; on a transport that connects
and answers `PROBE_RPROC` with a status `k`, the controller constructor then
sends exactly `DISABLE_0`, `DISABLE_1`, `PROBE_RPROC` in that order and ends
with the subsystem on and both cores STOPPED when `k = 0`, and with the
subsystem off and both cores in NONE when `k` is non-zero. -/
theorem construction (env : Env) (t0 : Trace) (k : Int) (hc : ∀ u, env.connect u = true)
    (hp : ∀ u, stoi (env.reply u "PROBE_RPROC") = Ret.ok k) :
    (∀ n : Int, n = 0 ∨ n = 1 →
      ∃ q : PRU, PRU.new env t0 n = (Ret.ok q, t0) ∧ q.number = n ∧
        q.state = State.NONE ∧ q.chanPort = n) ∧
    ∃ (s : PRUSS) (t : Trace), PRUSS.new env t0 = (Ret.ok s, t) ∧
      commands t = commands t0 ++ ["DISABLE_0", "DISABLE_1", "PROBE_RPROC"] ∧
      s.pru0.number = 0 ∧ s.pru1.number = 1 ∧ s.pru0.chanPort = 0 ∧ s.pru1.chanPort = 1 ∧
      (k = 0 → s.on_ = true ∧ s.pru0.state = State.STOPPED ∧ s.pru1.state = State.STOPPED) ∧
      (k ≠ 0 → s.on_ = false ∧ s.pru0.state = State.NONE ∧ s.pru1.state = State.NONE) := by
  refine ⟨?_, ?_⟩
  · intro n hn
    refine ⟨_, core_new env t0 n, rfl, rfl, ?_⟩
    rcases hn with hn | hn <;> simp [hn]
  · have hk : ∀ s u c, commands (Socket.sendcmd env s u c).2.2 = commands u ++ [c] :=
      fun s u c => sendcmd_commands env s u c (hc u)
    obtain ⟨b1, b2, b3, b4⟩ := bootUp_status env
      { on_ := false,
        sock := (Socket.sendcmd env (Socket.sendcmd env Socket.new t0 "DISABLE_0").2.1
          (Socket.sendcmd env Socket.new t0 "DISABLE_0").2.2 "DISABLE_1").2.1,
        pru0 := { number := 0, chanPort := 0, chanName := "pruss_api_pru",
                  sock := Socket.new, state := State.NONE },
        pru1 := { number := 1, chanPort := 1, chanName := "pruss_api_pru",
                  sock := Socket.new, state := State.NONE } }
      (Socket.sendcmd env (Socket.sendcmd env Socket.new t0 "DISABLE_0").2.1
          (Socket.sendcmd env Socket.new t0 "DISABLE_0").2.2 "DISABLE_1").2.2
      k rfl (hc _) (hp _)
    obtain ⟨i1, i2, i3, i4, _, _⟩ := bootUp_keeps_identity env
      (PRUSS.mk false
        (Socket.sendcmd env (Socket.sendcmd env Socket.new t0 "DISABLE_0").2.1
          (Socket.sendcmd env Socket.new t0 "DISABLE_0").2.2 "DISABLE_1").2.1
        (PRU.mk 0 0 "pruss_api_pru" Socket.new State.NONE)
        (PRU.mk 1 1 "pruss_api_pru" Socket.new State.NONE))
      (Socket.sendcmd env (Socket.sendcmd env Socket.new t0 "DISABLE_0").2.1
          (Socket.sendcmd env Socket.new t0 "DISABLE_0").2.2 "DISABLE_1").2.2
    rw [new_unfolds]
    generalize PRUSS.bootUp env _ _ = r at b1 b2 b3 b4 i1 i2 i3 i4
    obtain ⟨r1, s, t⟩ := r
    simp only at b1 b2 b3 b4 i1 i2 i3 i4
    subst b1
    refine ⟨s, t, rfl, ?_, i1, i2, i3, i4, b3, ?_⟩
    · rw [b2, hk, hk]; simp
    · intro h0
      obtain ⟨c1, c2, c3⟩ := b4 h0
      exact ⟨c1, by rw [c2], by rw [c3]⟩

/-- Witness for C17: construction against the all-zero daemon and against the
daemon answering -5. -/
theorem construction_witness :
    (PRUSS.new zeroEnv []).1 = Ret.ok bootedController ∧
    commands (PRUSS.new zeroEnv []).2 = ["DISABLE_0", "DISABLE_1", "PROBE_RPROC"] ∧
    (PRUSS.new failEnv []).1 = Ret.ok offController ∧
    commands (PRUSS.new failEnv []).2 = ["DISABLE_0", "DISABLE_1", "PROBE_RPROC"] ∧
    (∃ (s : PRUSS) (t : Trace), PRUSS.new zeroEnv [] = (Ret.ok s, t) ∧ s.on_ = true) ∧
    (∃ (s : PRUSS) (t : Trace), PRUSS.new failEnv [] = (Ret.ok s, t) ∧ s.on_ = false) :=
  have hz := (construction zeroEnv [] 0 (fun _ => rfl) (fun _ => rfl)).2
  have hf := (construction failEnv [] (-5) (fun _ => rfl) (fun _ => rfl)).2
  ⟨by decide, by decide, by decide, by decide,
   hz.elim fun s h => h.elim fun t h => ⟨s, t, h.1, (h.2.2.2.2.2.2.1 rfl).1⟩,
   hf.elim fun s h => h.elim fun t h => ⟨s, t, h.1, (h.2.2.2.2.2.2.2 (by decide)).1⟩⟩

/-! ## The bytes on the wire -/

theorem snprintf_plain (cs : List Char) (h : ∀ c ∈ cs, c ≠ '%') : snprintf cs = some cs := by
  induction cs with
  | nil => rfl
  | cons c r ih =>
    have hc : c ≠ '%' := h c (by simp)
    have hr := ih (fun x hx => h x (List.mem_cons_of_mem _ hx))
    rw [snprintf.eq_def]
    simp [hc, hr]

theorem wire_plain (junk : List Char) (command : String)
    (hp : ∀ c ∈ command.data, c ≠ '%') (hn : ∀ c ∈ command.data, c ≠ NUL) :
    Socket.wire junk command =
      if command.data.length < 2048
      then some (command.data ++ NL :: junk.takeWhile (fun c => c != NUL))
      else none := by
  have hc : c_str command = command.data := by
    simp only [c_str]
    rw [List.takeWhile_eq_self_iff]
    intro c hc
    simpa using hn c hc
  simp only [Socket.wire, hc, snprintf_plain _ hp]

/-- C18 (the code departs from the claim): `sendcmd` passes the command to
`snprintf` as the format string. A message text `a%%b` reaches the wire as
`a%b`; a text with a conversion such as `%d` makes the written bytes
undefined; a command of 2048 characters without any percent sign puts the
newline outside the buffer, again undefined; and since the newline overwrites
the terminator, the bytes that happen to follow in memory (`xy` here) are
transmitted after it. -/
theorem wire_not_verbatim :
    ((coreIn 0 State.RUNNING).sendMsg_string zeroEnv [] "a%%b").2.2
      = [Event.connect true,
         Event.write "SENDMSG s pruss_api_pru 0 a%%b"
           (some ("SENDMSG s pruss_api_pru 0 a%b".data ++ [NL])),
         Event.read "0", Event.close] ∧
    Socket.wire [] "SENDMSG s pruss_api_pru 0 a%%b"
      ≠ some ("SENDMSG s pruss_api_pru 0 a%%b".data ++ [NL]) ∧
    Socket.wire [] "SENDMSG s pruss_api_pru 0 100%d" = none ∧
    Socket.wire [] (String.mk (List.replicate 2048 'A')) = none ∧
    Socket.wire ['x', 'y'] "ENABLE_0" = some ("ENABLE_0".data ++ [NL, 'x', 'y']) := by
  refine ⟨by decide, by decide, by decide, ?_, by decide⟩
  have hl : (String.mk (List.replicate 2048 'A')).data.length = 2048 :=
    List.length_replicate _ _
  rw [wire_plain]
  · rw [if_neg (by rw [hl]; decide)]
  · intro c hc
    rw [List.eq_of_mem_replicate hc]
    decide
  · intro c hc
    rw [List.eq_of_mem_replicate hc]
    decide

/-! ## `restart` -/

theorem disable_ne_probe (x : String) : "DISABLE_" ++ x ≠ "PROBE_RPROC" := by
  intro h
  have h2 := congrArg (fun s => s.data.head?) h
  simp [String.data_append] at h2

theorem disable_all_zero (env : Env) (hc : ∀ u, env.connect u = true)
    (h0 : ∀ u c, stoi (env.reply u c) = Ret.ok 0) (p : PRU) (t : Trace) :
    (∃ v, (p.disable env t).1 = Ret.ok v) ∧
    (p.state ≠ State.NONE → (p.disable env t).2.1.state = State.STOPPED) ∧
    commands (p.disable env t).2.2 = commands t ++
      (if p.state = State.RUNNING ∨ p.state = State.HALTED
        then ["DISABLE_" ++ to_string p.number] else []) := by
  have hr : ∀ s u c, (Socket.sendcmd env s u c).1 = env.reply u c :=
    fun s u c => sendcmd_reply env s u c (hc u)
  have hk : ∀ s u c, commands (Socket.sendcmd env s u c).2.2 = commands u ++ [c] :=
    fun s u c => sendcmd_commands env s u c (hc u)
  rcases hst : p.state with _ | _ | _ | _ <;> simp [PRU.disable, hst, hr, hk, h0]

theorem disable_sends_no_probe (env : Env) (hc : ∀ u, env.connect u = true) (p : PRU)
    (t : Trace) :
    ∃ pre, commands (p.disable env t).2.2 = commands t ++ pre ∧ "PROBE_RPROC" ∉ pre := by
  have hk : ∀ s u c, commands (Socket.sendcmd env s u c).2.2 = commands u ++ [c] :=
    fun s u c => sendcmd_commands env s u c (hc u)
  have hne := disable_ne_probe (to_string p.number)
  have hsent : commands (p.disable env t).2.2 = commands t ∨
      commands (p.disable env t).2.2 = commands t ++ ["DISABLE_" ++ to_string p.number] := by
    rcases hst : p.state with _ | _ | _ | _
    · left; simp [PRU.disable, hst]
    · left; simp [PRU.disable, hst]
    · right
      simp only [PRU.disable, hst]
      cases stoi (Socket.sendcmd env p.sock t ("DISABLE_" ++ to_string p.number)).1 with
      | throw e => simp [hk]
      | ok v => by_cases hv : v = 0 <;> simp [hk, hv]
    · right
      simp only [PRU.disable, hst]
      cases stoi (Socket.sendcmd env p.sock t ("DISABLE_" ++ to_string p.number)).1 with
      | throw e => simp [hk]
      | ok v => by_cases hv : v = 0 <;> simp [hk, hv]
  rcases hsent with h | h
  · exact ⟨[], by simpa using h, by simp⟩
  · exact ⟨_, h, by simpa using fun h2 => hne h2.symm⟩

theorem shutDown_failed_unprobe (env : Env) (hc : ∀ u, env.connect u = true) (s : PRUSS)
    (t : Trace) (k : Int) (hon : s.on_ = true) (hk0 : k ≠ 0)
    (hu : ∀ u, stoi (env.reply u "UNPROBE_RPROC") = Ret.ok k) :
    (s.shutDown env t).2.1.on_ = true ∧
    ∃ pre, commands (s.shutDown env t).2.2 = commands t ++ pre ∧ "PROBE_RPROC" ∉ pre := by
  have hr : ∀ s u c, (Socket.sendcmd env s u c).1 = env.reply u c :=
    fun s u c => sendcmd_reply env s u c (hc u)
  have hk : ∀ s u c, commands (Socket.sendcmd env s u c).2.2 = commands u ++ [c] :=
    fun s u c => sendcmd_commands env s u c (hc u)
  obtain ⟨pre0, c0, n0⟩ := disable_sends_no_probe env hc s.pru0 t
  obtain ⟨pre1, c1, n1⟩ := disable_sends_no_probe env hc s.pru1 (s.pru0.disable env t).2.2
  cases h0 : (s.pru0.disable env t).1 with
  | throw x =>
    exact ⟨by simp [PRUSS.shutDown, hon, h0], pre0, by simp [PRUSS.shutDown, hon, h0, c0], n0⟩
  | ok v0 =>
    cases h1 : (s.pru1.disable env (s.pru0.disable env t).2.2).1 with
    | throw x =>
      exact ⟨by simp [PRUSS.shutDown, hon, h0, h1], pre0 ++ pre1,
        by simp [PRUSS.shutDown, hon, h0, h1, c0, c1], by simp [n0, n1]⟩
    | ok v1 =>
      exact ⟨by simp [PRUSS.shutDown, hon, h0, h1, hr, hu, hk0],
        pre0 ++ pre1 ++ ["UNPROBE_RPROC"],
        by simp [PRUSS.shutDown, hon, h0, h1, hr, hu, hk0, hk, c0, c1],
        by simp [n0, n1]⟩

/-- C19: `restart` is `shutDown` followed by `bootUp`, both results dropped.
On a transport that connects and answers 0 to every command it ends with the
subsystem on and both cores STOPPED; from an on subsystem the commands sent
are the `DISABLE_n` of each core that was RUNNING or HALTED, then
`UNPROBE_RPROC`, then `PROBE_RPROC`, and from an off subsystem `PROBE_RPROC`
alone. If the subsystem was on and the `UNPROBE_RPROC` reply is a non-zero
status, `restart` sends no `PROBE_RPROC` and leaves the subsystem on. -/
theorem restart_behaviour (env : Env) (hc : ∀ u, env.connect u = true) (s : PRUSS)
    (t : Trace) :
    ((∀ u c, stoi (env.reply u c) = Ret.ok 0) →
      (s.restart env t).1 = Ret.ok () ∧
      (s.restart env t).2.1.on_ = true ∧
      (s.restart env t).2.1.pru0.state = State.STOPPED ∧
      (s.restart env t).2.1.pru1.state = State.STOPPED ∧
      (s.on_ = true →
        commands (s.restart env t).2.2 = commands t ++
          (if s.pru0.state = State.RUNNING ∨ s.pru0.state = State.HALTED
            then ["DISABLE_" ++ to_string s.pru0.number] else []) ++
          (if s.pru1.state = State.RUNNING ∨ s.pru1.state = State.HALTED
            then ["DISABLE_" ++ to_string s.pru1.number] else []) ++
          ["UNPROBE_RPROC", "PROBE_RPROC"]) ∧
      (s.on_ = false → commands (s.restart env t).2.2 = commands t ++ ["PROBE_RPROC"])) ∧
    (∀ k : Int, k ≠ 0 → s.on_ = true →
      (∀ u, stoi (env.reply u "UNPROBE_RPROC") = Ret.ok k) →
      (s.restart env t).2.1.on_ = true ∧
      ∃ pre, commands (s.restart env t).2.2 = commands t ++ pre ∧ "PROBE_RPROC" ∉ pre) := by
  have hr : ∀ s u c, (Socket.sendcmd env s u c).1 = env.reply u c :=
    fun s u c => sendcmd_reply env s u c (hc u)
  have hk : ∀ s u c, commands (Socket.sendcmd env s u c).2.2 = commands u ++ [c] :=
    fun s u c => sendcmd_commands env s u c (hc u)
  refine ⟨?_, ?_⟩
  · intro h0
    by_cases hon : s.on_ = true
    · obtain ⟨⟨v0, e0⟩, _, c0⟩ := disable_all_zero env hc h0 s.pru0 t
      obtain ⟨⟨v1, e1⟩, _, c1⟩ :=
        disable_all_zero env hc h0 s.pru1 (s.pru0.disable env t).2.2
      simp [PRUSS.restart, PRUSS.shutDown, PRUSS.bootUp, hon, e0, e1, hr, h0, hk, c0, c1]
    · have hoff : s.on_ = false := by simpa using hon
      simp [PRUSS.restart, PRUSS.shutDown, PRUSS.bootUp, hoff, hr, h0, hk]
  · intro k hk0 hon hu
    obtain ⟨d1, pre, d2, d3⟩ := shutDown_failed_unprobe env hc s t k hon hk0 hu
    cases hd : (s.shutDown env t).1 with
    | throw x => exact ⟨by simp [PRUSS.restart, hd, d1], pre, by simp [PRUSS.restart, hd, d2], d3⟩
    | ok v =>
      have hb : (s.shutDown env t).2.1.bootUp env (s.shutDown env t).2.2
          = (Ret.ok (-EALREADY), (s.shutDown env t).2.1, (s.shutDown env t).2.2) := by
        simp [PRUSS.bootUp, d1]
      exact ⟨by simp [PRUSS.restart, hd, hb, d1], pre, by simp [PRUSS.restart, hd, hb, d2], d3⟩

/-- Witness for C19: `restart` of a busy controller and of the off controller
against the all-zero daemon, and of the busy controller against a daemon that
refuses the unprobe. -/
theorem restart_behaviour_witness :
    ((busyController.restart zeroEnv []).2.1.on_ = true ∧
      (busyController.restart zeroEnv []).2.1.pru0.state = State.STOPPED ∧
      (busyController.restart zeroEnv []).2.1.pru1.state = State.STOPPED ∧
      commands (busyController.restart zeroEnv []).2.2
        = ["DISABLE_0", "DISABLE_1", "UNPROBE_RPROC", "PROBE_RPROC"]) ∧
    ((offController.restart zeroEnv []).2.1.on_ = true ∧
      commands (offController.restart zeroEnv []).2.2 = ["PROBE_RPROC"]) ∧
    ((busyController.restart unprobeFailEnv []).2.1.on_ = true ∧
      commands (busyController.restart unprobeFailEnv []).2.2
        = ["DISABLE_0", "DISABLE_1", "UNPROBE_RPROC"]) :=
  have hb := (restart_behaviour zeroEnv (fun _ => rfl) busyController []).1 (fun _ _ => rfl)
  have ho := (restart_behaviour zeroEnv (fun _ => rfl) offController []).1 (fun _ _ => rfl)
  have hf := (restart_behaviour unprobeFailEnv (fun _ => rfl) busyController []).2 (-5)
    (by decide) rfl (fun _ => rfl)
  ⟨⟨hb.2.1, hb.2.2.1, hb.2.2.2.1, hb.2.2.2.2.1 rfl⟩,
   ⟨ho.2.1, ho.2.2.2.2.2 rfl⟩,
   ⟨hf.1, by decide⟩⟩

/-! ## The return value of `load` -/

/-- C20: on a transport that connects, with the `DISABLE_n`, `LOAD_n` and
`ENABLE_n` replies parsing to the integers `d`, `k` and `j`, `load` returns
exactly `k` from every starting state and always sends the `LOAD_n` command.
From NONE the core stays in NONE and `LOAD_n` is the only command sent; from
STOPPED, or from RUNNING or HALTED with `d = 0`, the core ends RUNNING when
`j = 0` and STOPPED otherwise; from RUNNING or HALTED with a non-zero `d` the
state is unchanged. So `load` can return 0 while the core is not RUNNING. -/
theorem load_returns_load_status (env : Env) (p : PRU) (t : Trace) (fw : String)
    (d k j : Int) (hc : ∀ u, env.connect u = true)
    (hd : ∀ u, stoi (env.reply u ("DISABLE_" ++ to_string p.number)) = Ret.ok d)
    (hl : ∀ u, stoi (env.reply u ("LOAD_" ++ to_string p.number ++ " " ++ env.realpath fw))
      = Ret.ok k)
    (he : ∀ u, stoi (env.reply u ("ENABLE_" ++ to_string p.number)) = Ret.ok j) :
    (p.load env t fw).1 = Ret.ok k ∧
    ("LOAD_" ++ to_string p.number ++ " " ++ env.realpath fw) ∈ commands (p.load env t fw).2.2 ∧
    (p.state = State.NONE →
      (p.load env t fw).2.1.state = State.NONE ∧
      commands (p.load env t fw).2.2
        = commands t ++ ["LOAD_" ++ to_string p.number ++ " " ++ env.realpath fw]) ∧
    (p.state = State.STOPPED ∨
        ((p.state = State.RUNNING ∨ p.state = State.HALTED) ∧ d = 0) →
      (p.load env t fw).2.1.state = (if j = 0 then State.RUNNING else State.STOPPED)) ∧
    ((p.state = State.RUNNING ∨ p.state = State.HALTED) ∧ d ≠ 0 →
      (p.load env t fw).2.1.state = p.state) := by
  have hr : ∀ s u c, (Socket.sendcmd env s u c).1 = env.reply u c :=
    fun s u c => sendcmd_reply env s u c (hc u)
  have hk : ∀ s u c, commands (Socket.sendcmd env s u c).2.2 = commands u ++ [c] :=
    fun s u c => sendcmd_commands env s u c (hc u)
  rcases hst : p.state with _ | _ | _ | _ <;> by_cases hd0 : d = 0 <;>
    by_cases hj0 : j = 0 <;>
    simp [PRU.load, PRU.disable, PRU.enable, hst, hr, hk, hd, hl, he, hd0, hj0]

/-- Witness for C20: `LOAD_0` answered 0, every other command answered -5: a
STOPPED core and a core in NONE both get 0 back from `load` and neither ends
RUNNING. -/
theorem load_returns_load_status_witness :
    (((coreIn 0 State.STOPPED).load loadOnlyEnv [] "fw.out").1 = Ret.ok 0 ∧
      ((coreIn 0 State.STOPPED).load loadOnlyEnv [] "fw.out").2.1.state = State.STOPPED) ∧
    (((coreIn 0 State.NONE).load loadOnlyEnv [] "fw.out").1 = Ret.ok 0 ∧
      ((coreIn 0 State.NONE).load loadOnlyEnv [] "fw.out").2.1.state = State.NONE ∧
      commands ((coreIn 0 State.NONE).load loadOnlyEnv [] "fw.out").2.2 = ["LOAD_0 fw.out"]) :=
  have hs := load_returns_load_status loadOnlyEnv (coreIn 0 State.STOPPED) [] "fw.out"
    (-5) 0 (-5) (fun _ => rfl) (fun _ => rfl) (fun _ => rfl) (fun _ => rfl)
  have hn := load_returns_load_status loadOnlyEnv (coreIn 0 State.NONE) [] "fw.out"
    (-5) 0 (-5) (fun _ => rfl) (fun _ => rfl) (fun _ => rfl) (fun _ => rfl)
  ⟨⟨hs.1, hs.2.2.2.1 (Or.inl rfl)⟩, ⟨hn.1, (hn.2.2.1 rfl).1, (hn.2.2.1 rfl).2⟩⟩

end Pruss
